import Mathlib

/-!
Shallow embedding of the `multisig-ops` repository scripts
`action-scripts/brownie/scripts/report_gauges.py` and
`tools/python/brownie/scripts/maxi_operations/bribe_ecosystems.py`.

Python values that matter to the scripts are modelled explicitly:
JSON dictionaries become structures with `Option` fields (a `none`
models an absent or falsy entry), fallible Python code becomes
`Except PyErr`, and the external world (chain RPC, block explorer,
address book, helper library `script_utils` which is not part of the
two source files) is a record of oracle functions `Env` that each
classifier receives explicitly.
-/

/-- Python exception values that the two scripts can raise or catch. -/
inductive PyErr where
  | keyError (key : String)
  | indexError
  | typeError (msg : String)
  | valueError (msg : String)
  | attributeError
  | assertionError
  | other (msg : String)
deriving DecidableEq, Repr

/-- Python values that appear as entries of a report row: strings,
ints (the `tx_index` entries), `None`, and lists of strings (the
`tokens` entry of the gauge-removal report row). -/
inductive PyVal where
  | str (s : String)
  | int (n : Nat)
  | none_
  | listS (xs : List String)
deriving DecidableEq, Repr

/-- Python `d.get(k)` on a string-valued dict (association list). -/
def civGet (d : List (String × String)) (k : String) : Option String :=
  (d.find? (fun p => p.1 == k)).map (·.2)

/-- Python truthiness of an optional string: `None` and `""` are falsy. -/
def pyStrTruthy : Option String → Option String
  | some s => if s = "" then none else some s
  | none => none

/-- Python `a or b` on two optional strings (left falsy value falls through). -/
def pyOrS (a b : Option String) : Option String :=
  match pyStrTruthy a with
  | some s => some s
  | none => b

/-- Python `d[k]` on an optional value: `KeyError` when missing. -/
def optKey (o : Option α) (k : String) : Except PyErr α :=
  match o with
  | some v => Except.ok v
  | none => Except.error (PyErr.keyError k)

/-- Add an element to a Python set modelled as a duplicate-free list. -/
def pyInsert [DecidableEq α] (l : List α) (a : α) : List α :=
  if a ∈ l then l else l ++ [a]

/-- Turn a list into a Python set (first occurrences kept). -/
def pyDedup [DecidableEq α] (l : List α) : List α :=
  l.foldl pyInsert []

/-- Whether the character list `pat` occurs inside `l` (Python `pat in s`). -/
def charSub (pat : List Char) : List Char → Bool
  | [] => pat.isEmpty
  | c :: t => pat.isPrefixOf (c :: t) || charSub pat t

/-- Python `pat in s` for strings. -/
def strContains (s pat : String) : Bool :=
  charSub pat.data s.data

/-- Python `s.strip(chars)`: remove any of `chars` from both ends. -/
def pyStrip (s : String) (chars : List Char) : String :=
  String.mk (((s.data.dropWhile (· ∈ chars)).reverse.dropWhile (· ∈ chars)).reverse)

/-- Left-to-right non-overlapping replacement on character lists, with
explicit fuel (the list length) for structural termination. -/
def replaceFuel (pat rep : List Char) : Nat → List Char → List Char
  | 0, l => l
  | _ + 1, [] => []
  | fuel + 1, c :: t =>
    if pat.isPrefixOf (c :: t) ∧ pat ≠ [] then
      rep ++ replaceFuel pat rep fuel ((c :: t).drop pat.length)
    else
      c :: replaceFuel pat rep fuel t

/-- Python `s.replace(pat, rep)` (for the non-empty patterns the scripts use). -/
def pyReplaceStr (s pat rep : String) : String :=
  String.mk (replaceFuel pat.data rep.data s.data.length s.data)

/-- Python `s.replace(" ", "")` as used on the role list. -/
def pyRemoveSpaces (s : String) : String :=
  String.mk (s.data.filter (· ≠ ' '))

/-- Python `s.split(",")` on character lists. -/
def splitCharList (c : Char) : List Char → List (List Char)
  | [] => [[]]
  | a :: t =>
    match splitCharList c t with
    | [] => [[]]
    | h :: r => if a = c then [] :: h :: r else (a :: h) :: r

/-- Python `s.split(",")`. -/
def strSplitComma (s : String) : List String :=
  (splitCharList ',' s.data).map String.mk

section BribeEcosystems

/-- One row of the bribe CSV (`csv.DictReader` row with the three columns
`target, platform, amount`). Amount stays a string; parsing it with
Python `float` is modelled by an abstract parse function. -/
structure BribeRow where
  target : String
  platform : String
  amount : String
deriving DecidableEq, Repr

/-- Python dict assignment `d[k] = v` on an association list:
overwrite in place when the key exists, append otherwise. -/
def pyDictSet (d : List (String × α)) (k : String) (v : α) : List (String × α) :=
  if d.any (fun p => p.1 == k) then
    d.map (fun p => if p.1 == k then (k, v) else p)
  else
    d ++ [(k, v)]

/-- Python `d[k]` lookup result on an association list. -/
def lookupD (d : List (String × α)) (k : String) : Option α :=
  (d.find? (fun p => p.1 == k)).map (·.2)

/-- Two-level lookup `bribes[platform][target]`. -/
def lookup2 (b : List (String × List (String × α))) (plat targ : String) : Option α :=
  match lookupD b plat with
  | some inner => lookupD inner targ
  | none => none

/-- The row loop of `process_bribe_csv`:
`bribes[bribe["platform"]][bribe["target"]] = float(bribe["amount"])`,
raising `KeyError` when the platform is neither `aura` nor `balancer`. -/
def pbcGo (parseFloat : String → α) :
    List BribeRow → List (String × List (String × α)) →
    Except PyErr (List (String × List (String × α)))
  | [], bribes => Except.ok bribes
  | r :: rs, bribes =>
    match lookupD bribes r.platform with
    | none => Except.error (PyErr.keyError r.platform)
    | some inner =>
      pbcGo parseFloat rs
        (pyDictSet bribes r.platform (pyDictSet inner r.target (parseFloat r.amount)))

/-- Function `process_bribe_csv` from `bribe_ecosystems.py`: starts from
`{"aura": {}, "balancer": {}}` and fills it row by row. -/
def process_bribe_csv (parseFloat : String → α) (rows : List BribeRow) :
    Except PyErr (List (String × List (String × α))) :=
  pbcGo parseFloat rows [("aura", []), ("balancer", [])]

end BribeEcosystems

section ReportGauges

/-- The `contractMethod` entry of a transaction-builder transaction.
`name = none` models a (truthy) method dict without a `"name"` key. -/
structure ContractMethod where
  name : Option String := none
deriving DecidableEq, Repr

/-- One transaction record of a transaction-builder JSON file. A `none`
field models an absent (or JSON-`null`) key; a `contractMethod`/
`contractInputsValues` that is absent, `null` or the empty dict is
`none` / `some []` (both are falsy in the guards). `toAddr` is the
transaction's `"to"` field (`to` is reserved in Lean). -/
structure Transaction where
  toAddr : Option String := none
  value : Option String := none
  data : Option String := none
  meta_bip_number : Option String := none
  tx_index : Option Nat := none
  contractMethod : Option ContractMethod := none
  contractInputsValues : Option (List (String × String)) := none
deriving DecidableEq, Repr

/-- A transaction-builder payload file (`chainId`, `meta.createdFromSafeAddress`
and the ordered transaction list, plus the name the driver keys reports by). -/
structure PayloadFile where
  file_name : String := ""
  chainId : Nat := 1
  createdFromSafeAddress : String := ""
  transactions : List Transaction := []
deriving DecidableEq, Repr

/-- A report row produced by a classifier: an ordered Python dict of
display entries. -/
abbrev Output := List (String × PyVal)

/-- The per-file value stored by `handler` / `parse_no_reports_report`:
`report_text` and `report_data.outputs`. -/
structure Report where
  report_text : String := ""
  outputs : List Output := []
deriving DecidableEq, Repr

/-- The keyword arguments `handler` passes to every classifier.
`none` models a `None` value (for `bip_number`) or an absent key
(for `tx_index`, rendered `"N/A"` by `kwargs.get`). -/
structure HandlerKwargs where
  chain_id : Nat := 1
  bip_number : Option String := none
  tx_index : Option Nat := none
deriving DecidableEq, Repr

/-- Python `kwargs.get("bip_number", "N/A")`: the key is always passed by
`handler`, possibly with value `None`. -/
def bipVal (kw : HandlerKwargs) : PyVal :=
  match kw.bip_number with
  | some s => PyVal.str s
  | none => PyVal.none_

/-- Python `kwargs.get("tx_index", "N/A")`. -/
def txIndexVal (kw : HandlerKwargs) : PyVal :=
  match kw.tx_index with
  | some n => PyVal.int n
  | none => PyVal.str "N/A"

/-- The data a brownie `Contract` object exposes to the script: its
selector values and the results of the view calls the script makes.
`getVotingEscrow = none` models a contract without that method
(calling it raises `AttributeError`). -/
structure ContractInfo where
  address : String := ""
  selectors : List String := []
  lp_token : String := ""
  getRecipient : String := ""
  reward_receiver : String := ""
  getVotingEscrow : Option String := none
  token : String := ""
  getRelativeWeightCap : Nat := 0
  contractName : String := ""
  decimals : Nat := 0
  symbol : String := ""
  getInjectTokenAddress : String := ""
deriving DecidableEq, Repr

/-- The tuple returned by `script_utils.get_pool_info`. -/
structure PoolInfo where
  pool_name : String := ""
  pool_symbol : String := ""
  pool_id : String := ""
  pool_address : String := ""
  a_factor : String := ""
  fee : String := ""
  tokens : List String := []
  rate_providers : List String := []
deriving DecidableEq, Repr

/-- A Hidden Hand proposal record (`prop_map[market].get(proposal_hash)`). -/
structure PropData where
  title : Option String := none
  poolId : Option String := none
deriving DecidableEq, Repr

/-- The tuple returned by `_extract_pool`. -/
structure ExtractedPool where
  pool_name : String := ""
  pool_symbol : String := ""
  pool_id : String := ""
  pool_address : String := ""
  a_factor : String := ""
  fee : String := ""
  style : String := ""
  tokens : List String := []
  rate_providers : List String := []
deriving DecidableEq, Repr

/-- The external world of `report_gauges.py`: the address book
(`bal_addresses`), brownie contract lookups, the block explorer,
and the helper functions imported from `script_utils` (which is repo
code not present under `src/`, modelled as abstract oracle functions;
string-formatting of Python floats is the abstract `formatDiv`).
Chain switching (`switch_chain_if_needed`) has no observable effect in
this model and is dropped. -/
structure Env where
  chain_names_by_id : Nat → Option String := fun _ => none
  chain_ids_by_name : List (String × Nat) := []
  reversebook : String → String → Option String := fun _ _ => none
  gauge_adder_address : String := ""
  aura_briber : String := ""
  balancer_briber : String := ""
  paths_by_action_id : String → String → Option (List String) := fun _ _ => none
  contracts : String → Except PyErr ContractInfo := fun a => Except.error (PyErr.other a)
  erc20 : String → ContractInfo := fun _ => {}
  get_pool_info : String → Except PyErr PoolInfo := fun a => Except.error (PyErr.other a)
  decode_input : String → String → Except PyErr (String × List String) :=
    fun a _ => Except.error (PyErr.other a)
  prop_map : String → String → Option PropData := fun _ _ => none
  to_checksum : String → String := id
  is_address : String → Bool := fun _ => false
  parse_txbuilder_list_string : String → List String := fun _ => []
  prettify_gauge_list : String → List String → List String := fun _ l => l
  prettify_int_amounts : List String → Nat → List String := fun l _ => l
  sum_list : List String → Nat := fun _ => 0
  prettify_tokens_list : List String → List String := fun l => l
  prettify_civ : String → List (String × String) → PyVal := fun _ _ => PyVal.none_
  json_dumps : Nat → PyVal → String := fun _ _ => ""
  formatDiv : Nat → Nat → String := fun _ _ => ""
  format_into_report : PayloadFile → List Output → String → Nat → String := fun _ _ _ _ => ""
  extract_bip_number : PayloadFile → Option String := fun _ => none
  extract_bip_number_from_file_name : String → Option String := fun _ => none

def CHAIN_MAINNET : String := "mainnet"

def STYLE_MAINNET : String := "mainnet"

def STYLE_SINGLE_RECIPIENT : String := "Single Recipient"

def STYLE_CHILD_CHAIN_STREAMER : String := "ChildChainStreamer"

def STYLE_L0 : String := "L0 sidechain"

def GAUGE_ADD_METHODS : List String := ["gauge", "rootGauge"]

def CMD_GAUGE_KILL : String := "killGauge()"

/-- The map `TYPE_TO_CHAIN_MAP` from `report_gauges.py`. -/
def TYPE_TO_CHAIN_MAP : List (String × String) :=
  [("Ethereum", CHAIN_MAINNET),
   ("Polygon", "polygon-main"),
   ("Arbitrum", "arbitrum-main"),
   ("Optimism", "optimism-main"),
   ("Gnosis", "gnosis-main"),
   ("PolygonZkEvm", "zkevm-main"),
   ("Avalanche", "avax-main"),
   ("Base", "base-main"),
   ("EthereumSingleRecipientGauge", CHAIN_MAINNET)]

/-- The map `SELECTORS_MAPPING` from `report_gauges.py`. -/
def SELECTORS_MAPPING : List (String × String) :=
  [("getPolygonBridge", "polygon-main"),
   ("getArbitrumBridge", "arbitrum-main"),
   ("getGnosisBridge", "gnosis-main"),
   ("getOptimismBridge", "optimism-main"),
   ("getPolygonZkEVMBridge", "zkevm-main"),
   ("getAvalancheBridge", "avax-main"),
   ("getBaseBridge", "base-main")]

/-- The exact block-explorer error text `_extract_pool` recognizes. -/
def MAGIC_UNVERIFIED : String :=
  "Failed to retrieve data from API: \x7b'status': '0', 'message': 'NOTOK', 'result': 'Contract source code not verified'\x7d"

/-- The sentinel pool fields substituted for an unverified contract. -/
def unverifiedPoolInfo : PoolInfo :=
  { pool_name := "CONTRACT_UNVERIFIED", pool_symbol := "CONTRACT_UNVERIFIED",
    pool_id := "CONTRACT_UNVERIFIED", pool_address := "CONTRACT_UNVERIFIED",
    a_factor := "CONTRACT_UNVERIFIED", fee := "CONTRACT_UNVERIFIED",
    tokens := [], rate_providers := [] }

/-- The sentinel pool fields for a single-recipient gauge with no escrow. -/
def noEscrowPoolInfo : PoolInfo :=
  { pool_name := "UNKNOWN - No escrow", pool_symbol := "N/A",
    pool_id := "N/A - No Escrow", pool_address := "N/A",
    a_factor := "N/A", fee := "N/A",
    tokens := ["UNKNOWN"], rate_providers := ["UNKNOWN"] }

/-- The `except ValueError as e` handler of `_extract_pool`'s sidechain
branch: the recognized unverified-contract message is replaced by
sentinels (keeping whatever `style` had been assigned inside the `try`),
anything else re-raises. -/
def extractCatch : PyErr → Option String → Except PyErr (PoolInfo × Option String)
  | PyErr.valueError m, st =>
    if m = MAGIC_UNVERIFIED then Except.ok (unverifiedPoolInfo, st)
    else Except.error (PyErr.valueError m)
  | e, _ => Except.error e

/-- The `try` block of `_extract_pool`'s sidechain branch:
`Contract(recipient)`, the optional `reward_receiver` redirection
(which sets `style` only after its own `Contract` call succeeded), and
`get_pool_info(... .lp_token())`; each failure goes through the
`ValueError` handler. -/
def sidechainTry (env : Env) (recipient : String) : Except PyErr (PoolInfo × Option String) :=
  match env.contracts recipient with
  | Except.error e => extractCatch e none
  | Except.ok sr =>
    if sr.selectors.contains "reward_receiver" then
      match env.contracts sr.reward_receiver with
      | Except.error e => extractCatch e none
      | Except.ok sr2 =>
        match env.get_pool_info sr2.lp_token with
        | Except.error e => extractCatch e (some STYLE_CHILD_CHAIN_STREAMER)
        | Except.ok pi => Except.ok (pi, some STYLE_CHILD_CHAIN_STREAMER)
    else
      match env.get_pool_info sr.lp_token with
      | Except.error e => extractCatch e none
      | Except.ok pi => Except.ok (pi, none)

/-- The `try` block of `_extract_pool`'s single-recipient branch:
`Contract(recipient.getVotingEscrow())` and `get_pool_info(escrow.token())`,
with `AttributeError` (a gauge/recipient without the expected method)
replaced by the no-escrow sentinels and anything else propagating. -/
def singleRecipientTry (env : Env) (recipient : ContractInfo) : Except PyErr PoolInfo :=
  match recipient.getVotingEscrow with
  | none => Except.ok noEscrowPoolInfo
  | some escrowAddr =>
    match env.contracts escrowAddr with
    | Except.error PyErr.attributeError => Except.ok noEscrowPoolInfo
    | Except.error e => Except.error e
    | Except.ok escrow =>
      match env.get_pool_info escrow.token with
      | Except.error PyErr.attributeError => Except.ok noEscrowPoolInfo
      | Except.error e => Except.error e
      | Except.ok pi => Except.ok pi

/-- Function `_extract_pool` from `report_gauges.py`. `chain = none` models the
Python `chain` variable being `None` (possible for an unknown gauge
type), which takes the sidechain branch and fails on `.replace`. -/
def _extract_pool (env : Env) (chain : Option String) (gauge : ContractInfo)
    (gauge_selectors : List String) : Except PyErr ExtractedPool :=
  if chain ≠ some CHAIN_MAINNET then
    -- Process sidechain gauges
    let recipient := gauge.getRecipient
    match chain with
    | none => Except.error (PyErr.attributeError)
    | some ch =>
      let chainKey := pyReplaceStr (pyReplaceStr ch "-main" "") "avax" "avalanche"
      match lookupD env.chain_ids_by_name chainKey with
      | none => Except.error (PyErr.keyError chainKey)
      | some _network_id =>
        match sidechainTry env recipient with
        | Except.error e => Except.error e
        | Except.ok (pi, style0) =>
          let style := style0.getD STYLE_L0
          Except.ok
            { pool_name := pi.pool_name, pool_symbol := pi.pool_symbol,
              pool_id := pi.pool_id, pool_address := pi.pool_address,
              a_factor := pi.a_factor, fee := pi.fee, style := style,
              tokens := env.prettify_tokens_list pi.tokens,
              rate_providers := pi.rate_providers }
  else if ¬ gauge_selectors.contains "name" then
    -- Process single recipient gauges
    match env.contracts gauge.getRecipient with
    | Except.error e => Except.error e
    | Except.ok recipient =>
      match singleRecipientTry env recipient with
      | Except.error e => Except.error e
      | Except.ok pi =>
        Except.ok
          { pool_name := pi.pool_name, pool_symbol := pi.pool_symbol,
            pool_id := pi.pool_id, pool_address := pi.pool_address,
            a_factor := pi.a_factor, fee := pi.fee, style := STYLE_SINGLE_RECIPIENT,
            tokens := env.prettify_tokens_list pi.tokens,
            rate_providers := pi.rate_providers }
  else
    -- Process mainnet gauges
    match env.get_pool_info gauge.lp_token with
    | Except.error e => Except.error e
    | Except.ok pi =>
      Except.ok
        { pool_name := pi.pool_name, pool_symbol := pi.pool_symbol,
          pool_id := pi.pool_id, pool_address := pi.pool_address,
          a_factor := pi.a_factor, fee := pi.fee, style := STYLE_MAINNET,
          tokens := env.prettify_tokens_list pi.tokens,
          rate_providers := pi.rate_providers }

/-- Function `_parse_set_recipient_list` from `report_gauges.py`: parse injector
changes. Returns `ok none` where the Python returns `None`, and an
exception where the Python raises (missing `"to"` / list keys raise
`KeyError`, the length check raises `AssertionError`). -/
def _parse_set_recipient_list (env : Env) (transaction : Transaction)
    (kwargs : HandlerKwargs) : Except PyErr (Option Output) :=
  -- chain name resolution happens before any guard
  let chain_name := (env.chain_names_by_id kwargs.chain_id).getD "None"
  match transaction.contractInputsValues, transaction.contractMethod with
  | some (c :: cs), some cm =>
    if cm.name ≠ some "setRecipientList" then Except.ok none
    else
      let civ := c :: cs
      match transaction.toAddr with
      | none => Except.error (PyErr.keyError "to")
      | some toRaw =>
        let to_address := env.to_checksum toRaw
        match env.contracts to_address with
        | Except.error e => Except.error e
        | Except.ok injector =>
          let token := env.erc20 injector.getInjectTokenAddress
          let decimals := token.decimals
          let symbol := token.symbol
          match civGet civ "gaugeAddresses", civGet civ "amountsPerPeriod",
              civGet civ "maxPeriods" with
          | some gaRaw, some appRaw, some mpRaw =>
            let gauge_addresses := env.parse_txbuilder_list_string gaRaw
            let amounts_per_period := env.parse_txbuilder_list_string appRaw
            let max_periods := env.parse_txbuilder_list_string mpRaw
            if gauge_addresses.length = amounts_per_period.length ∧
                gauge_addresses.length = max_periods.length then
              let pretty_gauges := env.prettify_gauge_list chain_name gauge_addresses
              let pretty_amounts := env.prettify_int_amounts amounts_per_period decimals
              let total_amount := env.sum_list amounts_per_period
              let injName := (env.reversebook chain_name to_address).getD "Not Found"
              let totDiv := env.formatDiv total_amount decimals
              Except.ok (some
                [("function", PyVal.str "setRecipientList"),
                 ("chain", PyVal.str chain_name),
                 ("injector", PyVal.str s!"{to_address}({injName})"),
                 ("symbol", PyVal.str symbol),
                 ("gaugeList", PyVal.str (env.json_dumps 1 (PyVal.listS pretty_gauges))),
                 ("amounts_per_period", PyVal.str (env.json_dumps 1 (PyVal.listS pretty_amounts))),
                 ("periods", PyVal.str (env.json_dumps 1 (PyVal.listS max_periods))),
                 ("total_amount", PyVal.str s!"raw: {total_amount}/1e{decimals} = {totDiv}"),
                 ("tx_index", txIndexVal kwargs)])
            else Except.error PyErr.assertionError
          | none, _, _ => Except.error (PyErr.keyError "gaugeAddresses")
          | some _, none, _ => Except.error (PyErr.keyError "amountsPerPeriod")
          | some _, some _, none => Except.error (PyErr.keyError "maxPeriods")
  | _, _ => Except.ok none

/-- Function `_parse_hh_brib` from `report_gauges.py`: parse Hidden Hand bribe
deposits. The briber addresses and the proposal map come from the
address book / Hidden Hand API oracles in `Env`. -/
def _parse_hh_brib (env : Env) (transaction : Transaction)
    (kwargs : HandlerKwargs) : Except PyErr (Option Output) :=
  match transaction.contractInputsValues, transaction.contractMethod with
  | some (c :: cs), some cm =>
    if cm.name ≠ some "depositBribe" then Except.ok none
    else
      let civ := c :: cs
      match transaction.toAddr with
      | none => Except.error (PyErr.keyError "to")
      | some toRaw =>
        let to_address := env.to_checksum toRaw
        let market? : Option String :=
          if to_address = env.aura_briber then some "aura"
          else if to_address = env.balancer_briber then some "balancer"
          else none
        match market? with
        | none => Except.ok none
        | some market =>
          let tokenC : Except PyErr ContractInfo :=
            match civGet civ "_token" with
            | some a => env.contracts a
            | none => Except.error (PyErr.typeError "Contract(None)")
          match tokenC with
          | Except.error e => Except.error e
          | Except.ok token =>
            match civGet civ "_amount" with
            | none => Except.error (PyErr.keyError "_amount")
            | some amtRaw =>
              match amtRaw.toNat? with
              | none => Except.error (PyErr.valueError "invalid literal for int()")
              | some raw_amount =>
                match civGet civ "_proposal" with
                | none => Except.error (PyErr.keyError "_proposal")
                | some proposal_hash =>
                  let whole_amount := env.formatDiv raw_amount token.decimals
                  let periods := (civGet civ "_periods").getD "N/A"
                  match env.prop_map market proposal_hash with
                  | none => Except.ok (some
                      [("function", PyVal.str "depositBribe"),
                       ("chain", PyVal.str "mainnet"),
                       ("error", PyVal.str s!"Can not find proposal {proposal_hash} on the {market} incentive market."),
                       ("bip", bipVal kwargs),
                       ("tx_index", txIndexVal kwargs)])
                  | some prop_data =>
                    let title := prop_data.title.getD "Not Found"
                    let poolId := prop_data.poolId.getD "Not Found"
                    let tokSym := token.symbol
                    Except.ok (some
                      [("function", PyVal.str "depositBribe"),
                       ("chain", PyVal.str "mainnet"),
                       ("title_and_poolId", PyVal.str s!"{title} \n{poolId}"),
                       ("incentive_paid", PyVal.str s!"{tokSym} {whole_amount}({raw_amount})"),
                       ("market_and_prophash", PyVal.str s!"{market} \n{proposal_hash}"),
                       ("periods", PyVal.str periods),
                       ("tx_index", txIndexVal kwargs)])
  | _, _ => Except.ok none

/-- Function `_parse_added_transaction` from `report_gauges.py`: parse a gauge
adder transaction. Dispatch is on the presence of a `gauge`/`rootGauge`
key in `contractInputsValues` (not on the method name, which is only
used for display). -/
def _parse_added_transaction (env : Env) (transaction : Transaction)
    (kwargs : HandlerKwargs) : Except PyErr (Option Output) :=
  match transaction.contractInputsValues, transaction.contractMethod with
  | some (c :: cs), some cm =>
    let civ := c :: cs
    -- Parse only gauge add transactions (key membership test)
    if ¬ GAUGE_ADD_METHODS.any (fun m => (civGet civ m).isSome) then Except.ok none
    else
      match cm.name with
      | none => Except.error (PyErr.keyError "name")
      | some command =>
        match pyStrTruthy (civGet civ "gaugeType") with
        | none => Except.ok none
        | some gauge_type =>
          match transaction.toAddr with
          | none => Except.error (PyErr.keyError "to")
          | some toRaw =>
            if toRaw ≠ env.gauge_adder_address then Except.ok none
            else
              let chain := lookupD TYPE_TO_CHAIN_MAP gauge_type
              -- first truthy of contractInputsValues gauge/rootGauge
              match pyOrS (civGet civ "gauge") (civGet civ "rootGauge") with
              | none => Except.ok none
              | some gauge_address =>
                match env.contracts gauge_address with
                | Except.error e => Except.error e
                | Except.ok gauge =>
                  let gauge_selectors := gauge.selectors
                  let capDiv := env.formatDiv gauge.getRelativeWeightCap 16
                  let gauge_cap :=
                    if gauge_selectors.contains "getRelativeWeightCap" then s!"{capDiv}%"
                    else "N/A"
                  match _extract_pool env chain gauge gauge_selectors with
                  | Except.error e => Except.error e
                  | Except.ok ep =>
                    let to_name := (env.reversebook "mainnet" toRaw).getD "!!NOT-FOUND"
                    let to_string :=
                      if to_name = "20230519-gauge-adder-v4/GaugeAdder" then "GaugeAdderV4"
                      else s!"!!f{to_name}??"
                    let chainDisp := match chain with
                      | some ch => pyReplaceStr ch "-main" ""
                      | none => "mainnet"
                    Except.ok (some
                      [("function", PyVal.str s!"{to_string}/{command}"),
                       ("chain", PyVal.str chainDisp),
                       ("pool_id_and_address", PyVal.str (ep.pool_id ++ " \npool_address: " ++ ep.pool_address)),
                       ("symbol_and_info", PyVal.str (ep.pool_symbol ++ " \nfee: " ++ ep.fee ++ ", a-factor: " ++ ep.a_factor)),
                       ("gauge_address_and_info", PyVal.str (gauge_address ++ "\nStyle: " ++ ep.style ++ ", cap: " ++ gauge_cap)),
                       ("tokens", PyVal.str (pyStrip (env.json_dumps 2 (PyVal.listS ep.tokens)) ['[', '\n', ']'])),
                       ("rate_providers", PyVal.str (pyStrip (env.json_dumps 2 (PyVal.listS ep.rate_providers)) ['[', '\n', ' ', ']'])),
                       ("bip", bipVal kwargs),
                       ("tx_index", txIndexVal kwargs)])
  | _, _ => Except.ok none

/-- The body of the `try` in `_parse_removed_transaction`: look up the
`target` input (`KeyError` when missing), checksum it and decode the
call data against the target contract's ABI. Any failure is caught by
the surrounding bare `except`. -/
def removedDecode (env : Env) (civ : List (String × String)) (encoded_data : String) :
    Except PyErr (String × List String) :=
  match civGet civ "target" with
  | none => Except.error (PyErr.keyError "target")
  | some target => env.decode_input (env.to_checksum target) encoded_data

/-- Function `_parse_removed_transaction` from `report_gauges.py`: parse a gauge
kill routed through the authorizer adaptor. The `try`/bare-`except`
around the target decode silently turns ANY failure there into `None`. -/
def _parse_removed_transaction (env : Env) (transaction : Transaction)
    (kwargs : HandlerKwargs) : Except PyErr (Option Output) :=
  match transaction.contractInputsValues, transaction.contractMethod with
  | some (c :: cs), some _cm =>
    let civ := c :: cs
    -- the re-check `not input_values or not isinstance(input_values, dict)`
    -- is subsumed by the guard above in this model
    match pyStrTruthy (civGet civ "data") with
    | none => Except.ok none
    | some encoded_data =>
      match removedDecode env civ encoded_data with
      | Except.error _ => Except.ok none   -- bare except: swallowed silently
      | Except.ok (command, inputs) =>
        if inputs.length = 0 ∧ command = CMD_GAUGE_KILL then
          match civGet civ "target" with
          | none => Except.error (PyErr.keyError "target")
          | some gauge_address =>
            match env.contracts gauge_address with
            | Except.error e => Except.error e
            | Except.ok gauge =>
              let gauge_selectors := gauge.selectors
              let capDiv := env.formatDiv gauge.getRelativeWeightCap 16
              let gauge_cap :=
                if gauge_selectors.contains "getRelativeWeightCap" then s!"{capDiv}%"
                else "N/A"
              let chain :=
                if gauge.contractName = "AvalancheRootGauge" then "avax-main"
                else if gauge.contractName = "PolygonZkEVMRootGauge" then "zkevm-main"
                else if gauge.contractName = "PolygonRootGauge" then "polygon-main"
                else if gauge.contractName = "ArbitrumRootGauge" then "arbitrum-main"
                else if gauge.contractName = "OptimismRootGauge" then "optimism-main"
                else if gauge.contractName = "GnosisRootGauge" then "gnosis-main"
                else if gauge.contractName = "BaseRootGauge" then "base-main"
                else
                  -- first selector found in SELECTORS_MAPPING, else mainnet
                  match gauge_selectors.find? (fun s => (lookupD SELECTORS_MAPPING s).isSome) with
                  | some s => (lookupD SELECTORS_MAPPING s).getD CHAIN_MAINNET
                  | none => CHAIN_MAINNET
              match _extract_pool env (some chain) gauge gauge_selectors with
              | Except.error e => Except.error e
              | Except.ok ep =>
                match transaction.toAddr with
                | none => Except.error (PyErr.keyError "to")
                | some toRaw =>
                  let to_name := (env.reversebook "mainnet" toRaw).getD "!!NOT-FOUND"
                  let to_string :=
                    if to_name = "20221124-authorizer-adaptor-entrypoint/AuthorizerAdaptorEntrypoint"
                    then "AAEntrypoint"
                    else s!"!!f{to_name}??"
                  Except.ok (some
                    [("function", PyVal.str s!"{to_string}/{command}"),
                     ("chain", PyVal.str (pyReplaceStr chain "-main" "")),
                     ("pool_id", PyVal.str ep.pool_id),
                     ("symbol", PyVal.str ep.pool_symbol),
                     ("a", PyVal.str ep.a_factor),
                     ("gauge_address", PyVal.str gauge_address),
                     ("fee", PyVal.str (ep.fee ++ "%")),
                     ("cap", PyVal.str gauge_cap),
                     ("style", PyVal.str ep.style),
                     ("bip", bipVal kwargs),
                     ("tx_index", txIndexVal kwargs),
                     ("tokens", PyVal.listS ep.tokens)])
        else Except.ok none
  | _, _ => Except.ok none

/-- The `fx_paths` accumulation loop of `_parse_permissions`:
`perms.paths_by_action_id[action_id]` raises `KeyError` for an unknown
action id, and looking up the `None` placeholder (missing `role` key)
also raises. -/
def pathsFold (env : Env) (chain_name : String) :
    List (Option String) → Except PyErr (List String)
  | [] => Except.ok []
  | none :: _ => Except.error (PyErr.keyError "None")
  | some a :: rest =>
    match env.paths_by_action_id chain_name a with
    | none => Except.error (PyErr.keyError a)
    | some paths =>
      match pathsFold env chain_name rest with
      | Except.error e => Except.error e
      | Except.ok r => Except.ok (paths ++ r)

/-- Function `_parse_permissions` from `report_gauges.py`: parse authorizer role
changes. `"Role" in function` with a missing method name is a
`TypeError` in Python (`function` is `None`). -/
def _parse_permissions (env : Env) (transaction : Transaction)
    (kwargs : HandlerKwargs) : Except PyErr (Option Output) :=
  match transaction.contractInputsValues, transaction.contractMethod with
  | some (c :: cs), some cm =>
    match cm.name with
    | none => Except.error (PyErr.typeError "argument of type NoneType is not iterable")
    | some function =>
      if ¬ strContains function "Role" then Except.ok none
      else
        match env.chain_names_by_id kwargs.chain_id with
        | none => Except.ok none
        | some chain_name =>
          let civ := c :: cs
          let action_ids : List (Option String) :=
            match pyStrTruthy (civGet civ "roles") with
            | none => [civGet civ "role"]
            | some roles =>
              (strSplitComma (pyRemoveSpaces (pyStrip roles ['[', ' ', ']']))).map some
          -- `isinstance(action_ids, list)` always holds here
          match transaction.toAddr with
          | none => Except.error (PyErr.keyError "to")
          | some toRaw =>
            let to_name := (env.reversebook chain_name toRaw).getD "!!NOT-FOUND"
            let to_string :=
              if to_name = "20210418-authorizer/Authorizer" then "Authorizer"
              else s!"!!{to_name}??"
            let caller_address := civGet civ "account"
            let caller_name :=
              match caller_address with
              | some a => (env.reversebook chain_name a).getD "!!NOT FOUND!!"
              | none => "!!NOT FOUND!!"
            match pathsFold env chain_name action_ids with
            | Except.error e => Except.error e
            | Except.ok fx_paths =>
              Except.ok (some
                [("function", PyVal.str s!"{to_string}/{function}"),
                 ("chain", PyVal.str chain_name),
                 ("caller_name", PyVal.str caller_name),
                 ("caller_address",
                   match caller_address with
                   | some a => PyVal.str a
                   | none => PyVal.none_),
                 ("fx_paths", PyVal.str (String.intercalate "\n" fx_paths)),
                 ("action_ids", PyVal.str (String.intercalate "\n" (action_ids.map (·.getD "")))),
                 ("bip", bipVal kwargs),
                 ("tx_index", txIndexVal kwargs)])
  | _, _ => Except.ok none

/-- Function `_parse_transfer` from `report_gauges.py`: parse an ERC-20
transfer. The chain loop binds `addresses` only when a chain id
matches; the later `addresses.reversebook` use raises `NameError`
otherwise (the `if not chain_name` guard can never fire since
`chain_name` starts as the truthy `"main"`). -/
def _parse_transfer (env : Env) (transaction : Transaction)
    (kwargs : HandlerKwargs) : Except PyErr (Option Output) :=
  match transaction.contractInputsValues, transaction.contractMethod with
  | some (c :: cs), some cm =>
    match cm.name with
    | none => Except.error (PyErr.keyError "name")
    | some name =>
      if name ≠ "transfer" then Except.ok none
      else
        let civ := c :: cs
        let found := env.chain_ids_by_name.find? (fun p => p.2 = kwargs.chain_id)
        let chain_name :=
          match found with
          | some p => if p.1 ≠ "mainnet" then p.1 ++ "-main" else "mainnet"
          | none => "main"
        match transaction.toAddr with
        | none => Except.error (PyErr.keyError "to")
        | some toRaw =>
          match env.contracts toRaw with
          | Except.error e => Except.error e
          | Except.ok token =>
            let recipient_raw :=
              pyOrS (civGet civ "to")
                (pyOrS (civGet civ "dst") (pyOrS (civGet civ "recipient") (civGet civ "_to")))
            let recipient_address : Option String :=
              match recipient_raw with
              | some r => if env.is_address r then some (env.to_checksum r) else none
              | none => none
            let raw_amount :=
              pyOrS (civGet civ "amount")
                (pyOrS (civGet civ "value") (pyOrS (civGet civ "wad") (civGet civ "_value")))
            let amountRes : Except PyErr (String × String) :=
              match raw_amount with
              | some ra =>
                match ra.toNat? with
                | some n => Except.ok (env.formatDiv n token.decimals, ra)
                | none => Except.error (PyErr.valueError "invalid literal for int()")
              | none => Except.ok ("N/A", "None")
            match amountRes with
            | Except.error e => Except.error e
            | Except.ok (amountS, rawS) =>
              let symbol := token.symbol
              match found with
              | none => Except.error (PyErr.other "NameError: name addresses is not defined")
              | some p =>
                let recipient_name :=
                  match recipient_address with
                  | some a => (env.reversebook p.1 a).getD "N/A"
                  | none => "N/A"
                let recipDisp := recipient_address.getD "None"
                let tokAddr := token.address
                Except.ok (some
                  [("function", PyVal.str "transfer"),
                   ("chain", PyVal.str (pyReplaceStr chain_name "-main" "")),
                   ("token_symbol", PyVal.str s!"{symbol}:{tokAddr}"),
                   ("recipient", PyVal.str s!"{recipient_name}:{recipDisp}"),
                   ("amount", PyVal.str s!"{amountS} (RAW: {rawS})"),
                   ("bip", bipVal kwargs),
                   ("tx_index", txIndexVal kwargs)])
  | _, _ => Except.ok none

/-- Python truthiness of a classifier result: `None` and the empty
dict are falsy and are not collected by `handler`. -/
def pyTruthyOut : Option Output → Option Output
  | some (x :: xs) => some (x :: xs)
  | _ => none

/-- The keyword arguments `handler` builds for transaction `tx` of
file `f` at index `i`: the file's chain id, the bip number from the
transaction's meta (or, failing that, from the file), and `tx_index`. -/
def kwFor (env : Env) (f : PayloadFile) (tx : Transaction) (i : Nat) : HandlerKwargs :=
  { chain_id := f.chainId,
    bip_number := pyOrS tx.meta_bip_number (env.extract_bip_number f),
    tx_index := some i }

/-- The per-file transaction loop of `handler`: calls the classifier on
each transaction in order with `tx_index = i` (the running counter) and
collects the truthy results in order. -/
def handlerLoop (env : Env)
    (handler_func : Transaction → HandlerKwargs → Except PyErr (Option Output))
    (f : PayloadFile) : List Transaction → Nat → Except PyErr (List Output)
  | [], _ => Except.ok []
  | tx :: rest, i =>
    match handler_func tx (kwFor env f tx i) with
    | Except.error e => Except.error e
    | Except.ok data =>
      match handlerLoop env handler_func f rest (i + 1) with
      | Except.error e => Except.error e
      | Except.ok restOuts =>
        Except.ok
          (match pyTruthyOut data with
           | some o => o :: restOuts
           | none => restOuts)

/-- Specification-side formulation of the per-file loop: classify an
enumerated transaction list (each transaction paired with its
zero-based position, which becomes its `tx_index`), keeping the truthy
outputs in order. -/
def classifyEnum (env : Env)
    (handler_func : Transaction → HandlerKwargs → Except PyErr (Option Output))
    (f : PayloadFile) (l : List (Nat × Transaction)) : Except PyErr (List Output) :=
  (l.mapM (fun p => handler_func p.2 (kwFor env f p.2 p.1))).map
    (fun results => results.filterMap pyTruthyOut)

/-- The report value `handler` stores for a file with outputs. -/
def mkHandlerReport (env : Env) (f : PayloadFile) (outputs : List Output) : Report :=
  { report_text := env.format_into_report f outputs f.createdFromSafeAddress f.chainId,
    outputs := outputs }

/-- Function `handler` from `report_gauges.py`: process the files one at a time,
keeping (in file order) an entry for every file whose classifier
outputs are non-empty. -/
def handler (env : Env) (files : List PayloadFile)
    (handler_func : Transaction → HandlerKwargs → Except PyErr (Option Output)) :
    Except PyErr (List (String × Report)) :=
  match files with
  | [] => Except.ok []
  | f :: rest =>
    match handlerLoop env handler_func f f.transactions 0 with
    | Except.error e => Except.error e
    | Except.ok outputs =>
      match handler env rest handler_func with
      | Except.error e => Except.error e
      | Except.ok rest' =>
        Except.ok (if outputs.isEmpty then rest' else (f.file_name, mkHandlerReport env f outputs) :: rest')

/-- Python `output.get("tx_index")` on a report row. -/
def outGet (o : Output) (k : String) : Option PyVal :=
  (o.find? (fun p => p.1 == k)).map (·.2)

/-- The covered-index set of one file: every `tx_index` value claimed
by an output reported for that file (a missing entry contributes
Python `None`), as a Python set. -/
def coveredOf (entries : List (String × Report)) (fn : String) : List PyVal :=
  pyDedup (((entries.filter (fun e => e.1 == fn)).map
    (fun e => e.2.outputs.map (fun o => (outGet o "tx_index").getD PyVal.none_))).flatten)

/-- The uncovered-index computation of `parse_no_reports_report`
(lines 607-612): `set(range(len)).symmetric_difference(covered)`,
plus a forced `add(0)` when nothing was covered. -/
def uncoveredIndexes (txLen : Nat) (covered : List PyVal) : List PyVal :=
  let all_indexes := (List.range txLen).map PyVal.int
  let u := (all_indexes.filter (fun x => decide (x ∉ covered))) ++
    (covered.filter (fun x => decide (x ∉ all_indexes)))
  if covered.isEmpty then pyInsert u (PyVal.int 0) else u

/-- The uncovered-index computation as the specification sentence
states it: the plain set difference between all transaction indices
and the claimed indices. (Spec-side definition, for comparison with
`uncoveredIndexes`.) -/
def uncoveredIndexesSpec (txLen : Nat) (covered : List PyVal) : List PyVal :=
  ((List.range txLen).map PyVal.int).filter (fun x => decide (x ∉ covered))

/-- Python `transactions[i]` where `i` is a set element: only an
in-range int succeeds; an out-of-range int raises `IndexError` and a
non-int raises `TypeError`. -/
def pyIndexTx (txs : List Transaction) : PyVal → Except PyErr Transaction
  | PyVal.int n =>
    match txs[n]? with
    | some tx => Except.ok tx
    | none => Except.error PyErr.indexError
  | _ => Except.error (PyErr.typeError "list indices must be integers or slices, not NoneType or str")

/-- One catch-all report row of `parse_no_reports_report` for an
uncovered transaction (`transaction["to"]` raises `KeyError` when the
field is missing; a present `value` that is not an int literal raises
`ValueError`). -/
def buildRow (env : Env) (chain_name fn : String) (tx : Transaction) :
    Except PyErr Output :=
  match tx.toAddr with
  | none => Except.error (PyErr.keyError "to")
  | some toRaw =>
    let bip := pyOrS tx.meta_bip_number (env.extract_bip_number_from_file_name fn)
    let civ_parsed : PyVal :=
      match tx.contractInputsValues with
      | some l => env.prettify_civ chain_name l
      | none =>
        match pyStrTruthy tx.data with
        | some d => PyVal.str d
        | none => PyVal.str "N/A"
    let valueRes : Except PyErr String :=
      match pyStrTruthy tx.value with
      | some v =>
        match v.toNat? with
        | some n =>
          if n = 0 then Except.ok "0"
          else Except.ok (toString n ++ "/1e18 = " ++ env.formatDiv n 18)
        | none => Except.error (PyErr.valueError "invalid literal for int()")
      | none => Except.ok "N/A"
    match valueRes with
    | Except.error e => Except.error e
    | Except.ok valuestring =>
      let fx_name :=
        match tx.contractMethod with
        | some cm => cm.name.getD "!!N/A!!"
        | none => "!!N/A!!"
      let toBook := (env.reversebook chain_name toRaw).getD "Not Found"
      Except.ok
        [("fx_name", PyVal.str fx_name),
         ("to", PyVal.str s!"{toRaw} ({toBook})"),
         ("chain", PyVal.str chain_name),
         ("value", PyVal.str valuestring),
         ("inputs", PyVal.str (env.json_dumps 2 civ_parsed)),
         ("bip_number",
           match bip with
           | some s => PyVal.str s
           | none => PyVal.none_),
         ("tx_index",
           match tx.tx_index with
           | some n => PyVal.int n
           | none => PyVal.str "N/A")]

/-- The per-file row loop of `parse_no_reports_report` over the
uncovered index set. -/
def buildRows (env : Env) (chain_name fn : String) (txs : List Transaction) :
    List PyVal → Except PyErr (List Output)
  | [] => Except.ok []
  | i :: rest =>
    match pyIndexTx txs i with
    | Except.error e => Except.error e
    | Except.ok tx =>
      match buildRow env chain_name fn tx with
      | Except.error e => Except.error e
      | Except.ok row =>
        match buildRows env chain_name fn txs rest with
        | Except.error e => Except.error e
        | Except.ok rest' => Except.ok (row :: rest')

/-- The main loop of `parse_no_reports_report` over the files (the
iteration order of `covered_indexs_by_file.items()` is the file order):
fully covered files are skipped, every other file gets a catch-all
report entry. -/
def pnrLoop (env : Env) (entries : List (String × Report)) :
    List PayloadFile → Except PyErr (List (String × Report))
  | [] => Except.ok []
  | f :: rest =>
    let covered := coveredOf entries f.file_name
    let unc := uncoveredIndexes f.transactions.length covered
    if unc.isEmpty then pnrLoop env entries rest
    else
      let chain_name := (env.chain_names_by_id f.chainId).getD "Chain_not_found"
      match buildRows env chain_name f.file_name f.transactions unc with
      | Except.error e => Except.error e
      | Except.ok rows =>
        match pnrLoop env entries rest with
        | Except.error e => Except.error e
        | Except.ok rest' =>
          Except.ok ((f.file_name,
            { report_text := env.format_into_report f rows f.createdFromSafeAddress f.chainId,
              outputs := rows }) :: rest')

/-- Function `parse_no_reports_report` from `report_gauges.py`. The covered-index
pass `covered_indexs_by_file[filename].add(...)` raises `KeyError` when
a report names a file that is not in `files`. -/
def parse_no_reports_report (env : Env) (all_reports : List (List (String × Report)))
    (files : List PayloadFile) : Except PyErr (List (String × Report)) :=
  match (all_reports.flatten).find?
      (fun e => ¬ (files.map (·.file_name)).contains e.1) with
  | some e => Except.error (PyErr.keyError e.1)
  | none => pnrLoop env all_reports.flatten files

/-- Modelled from the spec: `merge_files` (imported from
`script_utils`, which is repository code not present under `src/`)
combines the per-handler report dictionaries into one dictionary
mapping each reported file name to the concatenation of every report
text produced for it, in first-appearance order. -/
def merge_files (all_reports : List (List (String × Report))) : List (String × String) :=
  let entries := all_reports.flatten
  (pyDedup (entries.map (·.1))).map
    (fun fn => (fn, String.join ((entries.filter (fun e => e.1 == fn)).map (fun e => e.2.report_text))))

namespace report_gauges

/-- The function `main` from `report_gauges.py` (namespaced because a
top-level `main` is reserved by Lean), as a function from the changed
files (read by the external `get_changed_files`) to the list of
`(path, content)` text files it writes: the combined
`payload_reports.txt` (only when there is at least one report) followed
by one per-file report text, at the input file name with `.json`
replaced by `.report.txt`, under `../../`. -/
def main (env : Env) (files : List PayloadFile) : Except PyErr (List (String × String)) :=
  match handler env files (_parse_added_transaction env) with
  | Except.error e => Except.error e
  | Except.ok r1 =>
    match handler env files (_parse_removed_transaction env) with
    | Except.error e => Except.error e
    | Except.ok r2 =>
      match handler env files (_parse_transfer env) with
      | Except.error e => Except.error e
      | Except.ok r3 =>
        match handler env files (_parse_permissions env) with
        | Except.error e => Except.error e
        | Except.ok r4 =>
          match handler env files (_parse_hh_brib env) with
          | Except.error e => Except.error e
          | Except.ok r5 =>
            match handler env files (_parse_set_recipient_list env) with
            | Except.error e => Except.error e
            | Except.ok r6 =>
              match parse_no_reports_report env [r1, r2, r3, r4, r5, r6] files with
              | Except.error e => Except.error e
              | Except.ok no_reports_report =>
                let merged_files := merge_files [r1, r2, r3, r4, r5, r6, no_reports_report]
                Except.ok
                  ((if merged_files.isEmpty then []
                    else [("payload_reports.txt", String.join (merged_files.map (·.2)))]) ++
                   merged_files.map
                     (fun p => ("../../" ++ pyReplaceStr p.1 ".json" ".report.txt", p.2)))

end report_gauges

end ReportGauges

/-! Concrete environments, transactions and files used by the witness and
counterexample theorems below. -/

def witnessEnv : Env := {}

def emptyFile : PayloadFile := { file_name := "empty.json", chainId := 1 }

def unverifiedEnv : Env :=
  { chain_ids_by_name := [("polygon", 137)],
    contracts := fun _ => Except.ok { selectors := [], lp_token := "LP5" },
    get_pool_info := fun _ => Except.error (PyErr.valueError MAGIC_UNVERIFIED) }

def swallowEnv : Env :=
  { decode_input := fun _ _ => Except.error (PyErr.other "ConnectionError: explorer down") }

def killTx : Transaction :=
  { toAddr := some "T0",
    contractMethod := some { name := some "execute" },
    contractInputsValues := some [("data", "0xdead"), ("target", "TGT")] }

def propagateEnv : Env :=
  { chain_ids_by_name := [("polygon", 137)],
    contracts := fun _ => Except.error (PyErr.other "boom") }

def srlMissingToTx : Transaction :=
  { contractMethod := some { name := some "setRecipientList" },
    contractInputsValues := some [("x", "y")] }

def guardTx : Transaction := {}

def noNameTx : Transaction :=
  { contractMethod := some {},
    contractInputsValues := some [("role", "0xrole")] }

def addedEnv : Env :=
  { gauge_adder_address := "ADDER",
    contracts := fun a => Except.ok { address := a, selectors := ["name"], lp_token := "LP" },
    get_pool_info := fun _ => Except.ok
      { pool_name := "PN", pool_symbol := "PS", pool_id := "PI", pool_address := "PA",
        a_factor := "AF", fee := "FE" },
    reversebook := fun _ a =>
      if a = "ADDER" then some "20230519-gauge-adder-v4/GaugeAdder" else none }

def addedTx : Transaction :=
  { toAddr := some "ADDER",
    contractMethod := some { name := some "transfer" },
    contractInputsValues := some [("gauge", "G"), ("gaugeType", "Ethereum")] }

def miscTx : Transaction :=
  { toAddr := some "A",
    contractMethod := some { name := some "foo" },
    contractInputsValues := some [("x", "y")] }

def oneTxFile : PayloadFile :=
  { file_name := "f.json", chainId := 1, createdFromSafeAddress := "SAFE",
    transactions := [{ toAddr := some "0xabc" }] }

/-! Helper lemmas shared by the claim theorems. -/

theorem lookupD_nil (k : String) : lookupD ([] : List (String × α)) k = none := rfl

theorem lookupD_cons (p : String × α) (d : List (String × α)) (k : String) :
    lookupD (p :: d) k = if p.1 = k then some p.2 else lookupD d k := by
  simp only [lookupD, List.find?]
  by_cases h : p.1 = k
  · simp [h]
  · have hb : (p.1 == k) = false := by simp [h]
    simp [hb, h]

theorem lookupD_map_set (d : List (String × α)) (k k' : String) (v : α) (hne : k' ≠ k) :
    lookupD (d.map (fun q => if q.1 == k then (k, v) else q)) k' = lookupD d k' := by
  induction d with
  | nil => rfl
  | cons p d ih =>
    rw [List.map_cons]
    by_cases h : p.1 = k
    · have hhead : (if (p.1 == k) = true then (k, v) else p) = (k, v) := by simp [h]
      rw [hhead, lookupD_cons, lookupD_cons, if_neg (Ne.symm hne), if_neg (h ▸ Ne.symm hne), ih]
    · have hhead : (if (p.1 == k) = true then (k, v) else p) = p := by simp [h]
      rw [hhead, lookupD_cons, lookupD_cons, ih]

theorem lookupD_map_set_self (d : List (String × α)) (k : String) (v : α)
    (hmem : d.any (fun q => q.1 == k) = true) :
    lookupD (d.map (fun q => if q.1 == k then (k, v) else q)) k = some v := by
  induction d with
  | nil => simp at hmem
  | cons p d ih =>
    rw [List.map_cons]
    by_cases h : p.1 = k
    · have hhead : (if (p.1 == k) = true then (k, v) else p) = (k, v) := by simp [h]
      rw [hhead, lookupD_cons, if_pos rfl]
    · have hhead : (if (p.1 == k) = true then (k, v) else p) = p := by simp [h]
      simp only [List.any_cons, Bool.or_eq_true, beq_iff_eq] at hmem
      rcases hmem with hmem | hmem
      · exact absurd hmem h
      · rw [hhead, lookupD_cons, if_neg h]
        exact ih (by simpa using hmem)

theorem lookupD_append_new (d : List (String × α)) (k k' : String) (v : α)
    (hmem : d.any (fun q => q.1 == k) = false) :
    lookupD (d ++ [(k, v)]) k' = if k' = k then some v else lookupD d k' := by
  induction d with
  | nil =>
    rw [List.nil_append, lookupD_cons, lookupD_nil]
    by_cases hk : k = k'
    · simp [hk]
    · rw [if_neg hk, if_neg (Ne.symm hk)]
  | cons p d ih =>
    simp only [List.any_cons, Bool.or_eq_false_iff] at hmem
    obtain ⟨h1, h2⟩ := hmem
    have hp : p.1 ≠ k := by simpa using h1
    rw [List.cons_append, lookupD_cons, lookupD_cons]
    by_cases hpk : p.1 = k'
    · rw [if_pos hpk, if_pos hpk, if_neg (fun hkk => hp (hpk.trans hkk))]
    · rw [if_neg hpk, if_neg hpk, ih h2]

theorem lookupD_pyDictSet (d : List (String × α)) (k k' : String) (v : α) :
    lookupD (pyDictSet d k v) k' = if k' = k then some v else lookupD d k' := by
  unfold pyDictSet
  by_cases hmem : d.any (fun q => q.1 == k) = true
  · rw [if_pos hmem]
    by_cases hk : k' = k
    · subst hk; rw [lookupD_map_set_self d k' v hmem, if_pos rfl]
    · rw [lookupD_map_set d k k' v hk, if_neg hk]
  · rw [if_neg hmem]
    rw [Bool.not_eq_true] at hmem
    exact lookupD_append_new d k k' v hmem

theorem lookup2_eq (b : List (String × List (String × α))) (plat targ : String) :
    lookup2 b plat targ = (lookupD b plat).bind (fun inner => lookupD inner targ) := by
  unfold lookup2
  cases lookupD b plat <;> rfl

theorem lookup2_set_self (d : List (String × List (String × α)))
    (inner : List (String × α)) (p0 t0 : String) (v : α) :
    lookup2 (pyDictSet d p0 (pyDictSet inner t0 v)) p0 t0 = some v := by
  rw [lookup2_eq, lookupD_pyDictSet, if_pos rfl, Option.some_bind, lookupD_pyDictSet, if_pos rfl]

theorem lookup2_set_other (d : List (String × List (String × α)))
    (inner : List (String × α)) (p0 t0 : String) (v : α) (plat targ : String)
    (hfind : lookupD d p0 = some inner) (hne : ¬(plat = p0 ∧ targ = t0)) :
    lookup2 (pyDictSet d p0 (pyDictSet inner t0 v)) plat targ = lookup2 d plat targ := by
  rw [lookup2_eq, lookup2_eq, lookupD_pyDictSet]
  by_cases hp : plat = p0
  · have ht : targ ≠ t0 := fun ht => hne ⟨hp, ht⟩
    rw [if_pos hp, hp, hfind, Option.some_bind, Option.some_bind, lookupD_pyDictSet, if_neg ht]
  · rw [if_neg hp]

theorem any_of_lookupD {d : List (String × α)} {k : String} {v : α}
    (h : lookupD d k = some v) : d.any (fun q => q.1 == k) = true := by
  simp only [lookupD, Option.map_eq_some'] at h
  obtain ⟨q, hq, _⟩ := h
  have hpred := List.find?_some hq
  exact List.any_eq_true.mpr ⟨q, List.mem_of_find?_eq_some hq, hpred⟩

theorem pyDictSet_keys {d : List (String × α)} {k : String} (v : α)
    (h : d.any (fun q => q.1 == k) = true) :
    (pyDictSet d k v).map (·.1) = d.map (·.1) := by
  unfold pyDictSet
  rw [if_pos h, List.map_map]
  apply List.map_congr_left
  intro p _
  by_cases hp : p.1 = k
  · simp [hp]
  · simp [hp]

theorem pbcGo_keys (pf : String → α) (rows : List BribeRow)
    (d b : List (String × List (String × α))) (h : pbcGo pf rows d = Except.ok b) :
    b.map (·.1) = d.map (·.1) := by
  induction rows generalizing d with
  | nil =>
    simp only [pbcGo] at h
    cases h
    rfl
  | cons r rs ih =>
    simp only [pbcGo] at h
    cases hfind : lookupD d r.platform with
    | none => rw [hfind] at h; cases h
    | some inner =>
      rw [hfind] at h
      rw [ih _ h, pyDictSet_keys _ (any_of_lookupD hfind)]

theorem pbcGo_lookup (pf : String → α) (rows : List BribeRow)
    (d b : List (String × List (String × α))) (plat targ : String)
    (h : pbcGo pf rows d = Except.ok b) :
    lookup2 b plat targ =
      match (rows.filter (fun r => r.platform == plat && r.target == targ)).getLast? with
      | some r => some (pf r.amount)
      | none => lookup2 d plat targ := by
  induction rows generalizing d with
  | nil =>
    simp only [pbcGo] at h
    cases h
    rfl
  | cons r rs ih =>
    simp only [pbcGo] at h
    cases hfind : lookupD d r.platform with
    | none => rw [hfind] at h; cases h
    | some inner =>
      rw [hfind] at h
      rw [ih _ h]
      by_cases hmatch : (r.platform == plat && r.target == targ) = true
      · simp only [List.filter_cons, hmatch, ite_true]
        have hpt : plat = r.platform ∧ targ = r.target := by
          simp only [Bool.and_eq_true, beq_iff_eq] at hmatch
          exact ⟨hmatch.1.symm, hmatch.2.symm⟩
        cases hfil : rs.filter (fun r => r.platform == plat && r.target == targ) with
        | nil =>
          simp only [List.getLast?_nil, List.getLast?_singleton]
          rw [hpt.1, hpt.2]
          exact lookup2_set_self d inner r.platform r.target (pf r.amount)
        | cons x t =>
          rw [List.getLast?_cons_cons]
          cases hl : (x :: t).getLast? with
          | some r' => rfl
          | none =>
            rw [List.getLast?_eq_none_iff] at hl
            cases hl
      · rw [Bool.not_eq_true] at hmatch
        simp only [List.filter_cons, hmatch, Bool.false_eq_true, ite_false]
        have hne : ¬(plat = r.platform ∧ targ = r.target) := by
          intro ⟨h1, h2⟩
          rw [h1, h2] at hmatch
          simp at hmatch
        cases hlast : (rs.filter (fun r => r.platform == plat && r.target == targ)).getLast? with
        | some r' => rfl
        | none =>
          exact lookup2_set_other d inner r.platform r.target (pf r.amount) plat targ hfind hne

theorem lookupD_of_mem_keys {d : List (String × α)} {k : String}
    (h : k ∈ d.map (·.1)) : ∃ v, lookupD d k = some v := by
  induction d with
  | nil => simp at h
  | cons p d ih =>
    rw [List.map_cons, List.mem_cons] at h
    rw [lookupD_cons]
    by_cases hp : p.1 = k
    · exact ⟨p.2, by rw [if_pos hp]⟩
    · rcases h with h | h
      · exact absurd h.symm hp
      · rw [if_neg hp]
        exact ih h

theorem pbcGo_total (pf : String → α) (rows : List BribeRow)
    (d : List (String × List (String × α)))
    (hplat : ∀ r ∈ rows, r.platform ∈ d.map (·.1)) :
    ∃ b, pbcGo pf rows d = Except.ok b := by
  induction rows generalizing d with
  | nil => exact ⟨d, rfl⟩
  | cons r rs ih =>
    obtain ⟨inner, hfind⟩ := lookupD_of_mem_keys (hplat r (List.mem_cons_self r rs))
    have hkeys := pyDictSet_keys (d := d) (k := r.platform)
      (pyDictSet inner r.target (pf r.amount)) (any_of_lookupD hfind)
    obtain ⟨b, hb⟩ := ih (pyDictSet d r.platform (pyDictSet inner r.target (pf r.amount)))
      (fun q hq => hkeys ▸ hplat q (List.mem_cons_of_mem r hq))
    exact ⟨b, by simp only [pbcGo, hfind]; exact hb⟩

theorem lookup2_init_none (plat targ : String) :
    lookup2 ([("aura", []), ("balancer", [])] : List (String × List (String × α))) plat targ = none := by
  rw [lookup2_eq, lookupD_cons, lookupD_cons, lookupD_nil]
  by_cases h1 : "aura" = plat
  · simp [h1, lookupD_nil]
  · rw [if_neg h1]
    by_cases h2 : "balancer" = plat
    · simp [h2, lookupD_nil]
    · rw [if_neg h2]
      rfl

theorem process_bribe_lookup {α : Type} (pf : String → α) (rows : List BribeRow)
    (b : List (String × List (String × α))) (plat targ : String)
    (h : process_bribe_csv pf rows = Except.ok b) :
    lookup2 b plat targ =
      ((rows.filter (fun r => r.platform == plat && r.target == targ)).getLast?).map
        (fun r => pf r.amount) := by
  rw [pbcGo_lookup pf rows _ b plat targ h]
  cases hlast : (rows.filter (fun r => r.platform == plat && r.target == targ)).getLast? with
  | some r => rfl
  | none =>
    rw [Option.map_none']
    exact lookup2_init_none plat targ

theorem mem_pyInsert [DecidableEq α] (l : List α) (a x : α) :
    x ∈ pyInsert l a ↔ x ∈ l ∨ x = a := by
  unfold pyInsert
  by_cases h : a ∈ l
  · rw [if_pos h]
    constructor
    · exact Or.inl
    · rintro (hx | rfl) <;> assumption
  · rw [if_neg h]
    simp [List.mem_append]

theorem mem_pyDedup_aux [DecidableEq α] (l acc : List α) (x : α) :
    x ∈ l.foldl pyInsert acc ↔ x ∈ acc ∨ x ∈ l := by
  induction l generalizing acc with
  | nil => simp
  | cons a t ih =>
    rw [List.foldl_cons, ih, mem_pyInsert]
    simp [or_assoc, or_comm, or_left_comm]

theorem mem_pyDedup [DecidableEq α] (l : List α) (x : α) :
    x ∈ pyDedup l ↔ x ∈ l := by
  unfold pyDedup
  rw [mem_pyDedup_aux]
  simp

theorem mem_allIdx {len : Nat} {x : PyVal} :
    x ∈ (List.range len).map PyVal.int ↔ ∃ n, n < len ∧ x = PyVal.int n := by
  simp [List.mem_map, List.mem_range, eq_comm]

theorem mem_uncoveredIndexes_nilcov (len : Nat) (x : PyVal) :
    x ∈ uncoveredIndexes len [] ↔ (∃ n, n < len ∧ x = PyVal.int n) ∨ x = PyVal.int 0 := by
  unfold uncoveredIndexes
  have hfil : ((List.range len).map PyVal.int).filter
      (fun x => decide (x ∉ ([] : List PyVal))) = (List.range len).map PyVal.int :=
    List.filter_eq_self.mpr (fun a _ => by simp)
  simp only [List.isEmpty_nil, ite_true, List.filter_nil, List.append_nil, hfil]
  rw [mem_pyInsert, mem_allIdx]

theorem mem_uncoveredIndexes (len : Nat) (cov : List PyVal) (x : PyVal) :
    x ∈ uncoveredIndexes len cov ↔
      ((∃ n, n < len ∧ x = PyVal.int n) ∧ x ∉ cov) ∨
      (x ∈ cov ∧ ¬ ∃ n, n < len ∧ x = PyVal.int n) ∨
      (cov = [] ∧ x = PyVal.int 0) := by
  by_cases hc : cov = []
  · subst hc
    rw [mem_uncoveredIndexes_nilcov]
    simp
  · have hce : cov.isEmpty = false := by
      cases hcc : cov.isEmpty
      · rfl
      · exact absurd (List.isEmpty_iff.mp hcc) hc
    unfold uncoveredIndexes
    simp only [hce, Bool.false_eq_true, ite_false, List.mem_append, List.mem_filter]
    constructor
    · rintro (⟨hmem, hd⟩ | ⟨hmem, hd⟩)
      · exact Or.inl ⟨mem_allIdx.mp hmem, of_decide_eq_true hd⟩
      · exact Or.inr (Or.inl ⟨hmem, fun hex => (of_decide_eq_true hd) (mem_allIdx.mpr hex)⟩)
    · rintro (⟨hex, hnot⟩ | ⟨hmem, hnot⟩ | ⟨hnil, _⟩)
      · exact Or.inl ⟨mem_allIdx.mpr hex, decide_eq_true hnot⟩
      · exact Or.inr ⟨hmem, decide_eq_true (fun hmem2 => hnot (mem_allIdx.mp hmem2))⟩
      · exact absurd hnil hc

theorem mem_uncoveredIndexesSpec (len : Nat) (cov : List PyVal) (x : PyVal) :
    x ∈ uncoveredIndexesSpec len cov ↔
      (∃ n, n < len ∧ x = PyVal.int n) ∧ x ∉ cov := by
  unfold uncoveredIndexesSpec
  rw [List.mem_filter, mem_allIdx]
  simp

theorem handlerLoop_eq_classifyEnum (env : Env)
    (hf : Transaction → HandlerKwargs → Except PyErr (Option Output))
    (f : PayloadFile) (txs : List Transaction) (i : Nat) :
    handlerLoop env hf f txs i = classifyEnum env hf f (txs.enumFrom i) := by
  induction txs generalizing i with
  | nil => rfl
  | cons tx rest ih =>
    unfold handlerLoop classifyEnum
    rw [show (tx :: rest).enumFrom i = (i, tx) :: rest.enumFrom (i + 1) from by
      simp [List.enumFrom]]
    rw [List.mapM_cons]
    have hp1 : ((i, tx) : Nat × Transaction).1 = i := rfl
    have hp2 : ((i, tx) : Nat × Transaction).2 = tx := rfl
    rw [hp1, hp2]
    cases hh : hf tx (kwFor env f tx i) with
    | error e => rfl
    | ok data =>
      rw [ih (i + 1)]
      unfold classifyEnum
      cases hrest : (rest.enumFrom (i + 1)).mapM (fun p => hf p.2 (kwFor env f p.2 p.1)) with
      | error e => rfl
      | ok xs =>
        cases hd : pyTruthyOut data <;>
          simp [hd, List.filterMap_cons, Except.map, Except.bind, Bind.bind, pure, Except.pure]

theorem pyInsert_nodup [DecidableEq α] (l : List α) (a : α) (h : l.Nodup) :
    (pyInsert l a).Nodup := by
  unfold pyInsert
  by_cases hm : a ∈ l
  · rwa [if_pos hm]
  · rw [if_neg hm]
    simp [List.nodup_append, h, hm]

theorem pyDedup_nodup [DecidableEq α] (l : List α) : (pyDedup l).Nodup := by
  unfold pyDedup
  have gen : ∀ (l acc : List α), acc.Nodup → (l.foldl pyInsert acc).Nodup := by
    intro l
    induction l with
    | nil => exact fun acc h => h
    | cons a t ih => exact fun acc h => ih _ (pyInsert_nodup acc a h)
  exact gen l [] List.nodup_nil

theorem length_eq_of_nodup_mem_iff [DecidableEq α] (l1 l2 : List α)
    (h1 : l1.Nodup) (h2 : l2.Nodup) (h : ∀ x, x ∈ l1 ↔ x ∈ l2) :
    l1.length = l2.length := by
  rw [← List.toFinset_card_of_nodup h1, ← List.toFinset_card_of_nodup h2]
  congr 1
  ext x
  simp only [List.mem_toFinset]
  exact h x

theorem handler_mem (env : Env) (files : List PayloadFile)
    (hf : Transaction → HandlerKwargs → Except PyErr (Option Output))
    (rs : List (String × Report)) (h : handler env files hf = Except.ok rs) :
    ∀ e ∈ rs, ∃ f ∈ files, e.1 = f.file_name ∧ e.2.outputs ≠ [] := by
  induction files generalizing rs with
  | nil =>
    simp only [handler] at h
    cases h
    intro e he
    cases he
  | cons f rest ih =>
    simp only [handler] at h
    cases hloop : handlerLoop env hf f f.transactions 0 with
    | error e => rw [hloop] at h; cases h
    | ok outputs =>
      rw [hloop] at h
      cases hrest : handler env rest hf with
      | error e => rw [hrest] at h; cases h
      | ok rest' =>
        rw [hrest] at h
        cases h
        intro e he
        by_cases hemp : outputs.isEmpty
        · rw [if_pos hemp] at he
          obtain ⟨g, hg, h1, h2⟩ := ih rest' hrest e he
          exact ⟨g, List.mem_cons_of_mem f hg, h1, h2⟩
        · rw [if_neg hemp] at he
          rcases List.mem_cons.mp he with rfl | he
          · refine ⟨f, List.mem_cons_self f rest, rfl, ?_⟩
            intro hnil
            rw [mkHandlerReport] at hnil
            simp only at hnil
            rw [hnil] at hemp
            exact hemp List.isEmpty_nil
          · obtain ⟨g, hg, h1, h2⟩ := ih rest' hrest e he
            exact ⟨g, List.mem_cons_of_mem f hg, h1, h2⟩

theorem coveredOf_nil_of_not_mem (entries : List (String × Report)) (fn : String)
    (h : ∀ e ∈ entries, e.1 ≠ fn) : coveredOf entries fn = [] := by
  unfold coveredOf
  have hfil : entries.filter (fun e => e.1 == fn) = [] := by
    rw [List.filter_eq_nil_iff]
    intro e he
    simp [h e he]
  rw [hfil]
  rfl

theorem pnr_keys (env : Env) (entries : List (String × Report)) (files : List PayloadFile)
    (nr : List (String × Report)) (h : pnrLoop env entries files = Except.ok nr) :
    ∀ e ∈ nr, ∃ f ∈ files, e.1 = f.file_name := by
  induction files generalizing nr with
  | nil =>
    simp only [pnrLoop] at h
    cases h
    intro e he
    cases he
  | cons f rest ih =>
    simp only [pnrLoop] at h
    by_cases hemp : (uncoveredIndexes f.transactions.length (coveredOf entries f.file_name)).isEmpty
    · rw [if_pos hemp] at h
      intro e he
      obtain ⟨g, hg, h1⟩ := ih nr h e he
      exact ⟨g, List.mem_cons_of_mem f hg, h1⟩
    · rw [if_neg hemp] at h
      cases hrows : buildRows env ((env.chain_names_by_id f.chainId).getD "Chain_not_found")
          f.file_name f.transactions
          (uncoveredIndexes f.transactions.length (coveredOf entries f.file_name)) with
      | error e => rw [hrows] at h; cases h
      | ok rows =>
        rw [hrows] at h
        cases hrest : pnrLoop env entries rest with
        | error e => rw [hrest] at h; cases h
        | ok rest' =>
          rw [hrest] at h
          cases h
          intro e he
          rcases List.mem_cons.mp he with rfl | he
          · exact ⟨f, List.mem_cons_self f rest, rfl⟩
          · obtain ⟨g, hg, h1⟩ := ih rest' hrest e he
            exact ⟨g, List.mem_cons_of_mem f hg, h1⟩

theorem pnr_covers (env : Env) (entries : List (String × Report)) (files : List PayloadFile)
    (nr : List (String × Report)) (h : pnrLoop env entries files = Except.ok nr)
    (f : PayloadFile) (hf : f ∈ files)
    (hunc : (uncoveredIndexes f.transactions.length (coveredOf entries f.file_name)).isEmpty = false) :
    f.file_name ∈ nr.map (·.1) := by
  induction files generalizing nr with
  | nil => cases hf
  | cons g rest ih =>
    simp only [pnrLoop] at h
    rcases List.mem_cons.mp hf with rfl | hf
    · rw [if_neg (by rw [hunc]; exact Bool.false_ne_true)] at h
      cases hrows : buildRows env ((env.chain_names_by_id f.chainId).getD "Chain_not_found")
          f.file_name f.transactions
          (uncoveredIndexes f.transactions.length (coveredOf entries f.file_name)) with
      | error e => rw [hrows] at h; cases h
      | ok rows =>
        rw [hrows] at h
        cases hrest : pnrLoop env entries rest with
        | error e => rw [hrest] at h; cases h
        | ok rest' =>
          rw [hrest] at h
          cases h
          exact List.mem_cons_self _ _
    · by_cases hemp : (uncoveredIndexes g.transactions.length (coveredOf entries g.file_name)).isEmpty
      · rw [if_pos hemp] at h
        exact ih nr h hf
      · rw [if_neg hemp] at h
        cases hrows : buildRows env ((env.chain_names_by_id g.chainId).getD "Chain_not_found")
            g.file_name g.transactions
            (uncoveredIndexes g.transactions.length (coveredOf entries g.file_name)) with
        | error e => rw [hrows] at h; cases h
        | ok rows =>
          rw [hrows] at h
          cases hrest : pnrLoop env entries rest with
          | error e => rw [hrest] at h; cases h
          | ok rest' =>
            rw [hrest] at h
            cases h
            rw [List.map_cons]
            exact List.mem_cons_of_mem _ (ih rest' hrest hf)

theorem merge_files_keys (all : List (List (String × Report))) :
    (merge_files all).map (·.1) = pyDedup ((all.flatten).map (·.1)) := by
  unfold merge_files
  rw [List.map_map]
  conv_rhs => rw [← List.map_id (pyDedup ((all.flatten).map (·.1)))]
  apply List.map_congr_left
  intro x _
  rfl

theorem mem_merge_keys_of_entry (all : List (List (String × Report)))
    (e : String × Report) (he : e ∈ all.flatten) :
    e.1 ∈ (merge_files all).map (·.1) := by
  rw [merge_files_keys, mem_pyDedup]
  exact List.mem_map_of_mem _ he

theorem entry_of_mem_merge_keys (all : List (List (String × Report))) (k : String)
    (hk : k ∈ (merge_files all).map (·.1)) :
    ∃ e ∈ all.flatten, e.1 = k := by
  rw [merge_files_keys, mem_pyDedup] at hk
  obtain ⟨e, he, hek⟩ := List.mem_map.mp hk
  exact ⟨e, he, hek⟩

theorem parse_ok_destruct (env : Env) (all : List (List (String × Report)))
    (files : List PayloadFile) (nr : List (String × Report))
    (h : parse_no_reports_report env all files = Except.ok nr) :
    pnrLoop env all.flatten files = Except.ok nr := by
  unfold parse_no_reports_report at h
  cases hfind : (all.flatten).find? (fun e => ¬ (files.map (·.file_name)).contains e.1) with
  | some e => rw [hfind] at h; cases h
  | none => rw [hfind] at h; exact h

/-! The claim theorems. -/

/-- Counterexample to C1 as stated: for a file with an empty
transaction list and no covered indices, the code's uncovered-index
computation produces index `0`, while the set difference of the claim
is empty. -/
theorem claim1_counterexample :
    PyVal.int 0 ∈ uncoveredIndexes 0 [] ∧ PyVal.int 0 ∉ uncoveredIndexesSpec 0 [] := by
  decide

/-- Claim C1 (amended): `parse_no_reports_report`'s uncovered-index
computation (`uncoveredIndexes`, used by `pnrLoop`) is the symmetric
difference of all transaction indices and the claimed indices, with
index `0` force-added when no index is claimed; it coincides with the
set difference stated by the specification whenever the claimed
indices all lie in the file's index range and the file has a
transaction or a claimed index. -/
theorem claim1_uncovered_amended (len : Nat) (cov : List PyVal)
    (hsub : ∀ x ∈ cov, ∃ n, n < len ∧ x = PyVal.int n)
    (hne : cov ≠ [] ∨ 0 < len) :
    ∀ x, x ∈ uncoveredIndexes len cov ↔ x ∈ uncoveredIndexesSpec len cov := by
  intro x
  rw [mem_uncoveredIndexes, mem_uncoveredIndexesSpec]
  constructor
  · rintro (h | ⟨hmem, hnot⟩ | ⟨hnil, rfl⟩)
    · exact h
    · exact absurd (hsub x hmem) hnot
    · rcases hne with hne | hlen
      · exact absurd hnil hne
      · exact ⟨⟨0, hlen, rfl⟩, by rw [hnil]; exact List.not_mem_nil _⟩
  · exact Or.inl

/-- Witness for the amended C1 at a concrete covered set and index. -/
theorem claim1_witness :
    PyVal.int 0 ∈ uncoveredIndexes 3 [PyVal.int 1] ↔
      PyVal.int 0 ∈ uncoveredIndexesSpec 3 [PyVal.int 1] :=
  claim1_uncovered_amended 3 [PyVal.int 1]
    (by intro x hx; cases hx with
        | head => exact ⟨1, by omega, rfl⟩
        | tail _ h => cases h)
    (Or.inl (by decide)) (PyVal.int 0)

/-- Counterexample to C2 as stated: `_parse_added_transaction` does not
dispatch on the method name at all; a transaction whose
`contractMethod.name` is `"transfer"` (the name a different classifier
handles) but which carries a `gauge` input key yields a full report
instead of `None`. -/
theorem claim2_counterexample :
    addedTx.contractMethod = some { name := some "transfer" } ∧
    _parse_added_transaction addedEnv addedTx { chain_id := 1, tx_index := some 0 } =
      Except.ok (some
        [("function", PyVal.str "GaugeAdderV4/transfer"),
         ("chain", PyVal.str "mainnet"),
         ("pool_id_and_address", PyVal.str "PI \npool_address: PA"),
         ("symbol_and_info", PyVal.str "PS \nfee: FE, a-factor: AF"),
         ("gauge_address_and_info", PyVal.str "G\nStyle: mainnet, cap: N/A"),
         ("tokens", PyVal.str ""),
         ("rate_providers", PyVal.str ""),
         ("bip", PyVal.none_),
         ("tx_index", PyVal.int 0)]) :=
  ⟨rfl, rfl⟩

/-- Claim C2 (amended): the classifiers that do dispatch on the method
name return `None` on a mismatch (`_parse_set_recipient_list` for
`setRecipientList`, `_parse_hh_brib` for `depositBribe`,
`_parse_transfer` for `transfer`, `_parse_permissions` for names
containing `Role`); `_parse_added_transaction` and
`_parse_removed_transaction` instead dispatch on the
`contractInputsValues` keys (`gauge`/`rootGauge`, resp. a truthy
`data`) and return `None` when those are absent, regardless of the
method name. -/
theorem claim2_method_dispatch_amended :
    (∀ (env : Env) (t : Transaction) (kw : HandlerKwargs) (cm : ContractMethod),
       t.contractMethod = some cm → cm.name ≠ some "setRecipientList" →
       _parse_set_recipient_list env t kw = Except.ok none) ∧
    (∀ (env : Env) (t : Transaction) (kw : HandlerKwargs) (cm : ContractMethod),
       t.contractMethod = some cm → cm.name ≠ some "depositBribe" →
       _parse_hh_brib env t kw = Except.ok none) ∧
    (∀ (env : Env) (t : Transaction) (kw : HandlerKwargs) (cm : ContractMethod) (s : String),
       t.contractMethod = some cm → cm.name = some s → s ≠ "transfer" →
       _parse_transfer env t kw = Except.ok none) ∧
    (∀ (env : Env) (t : Transaction) (kw : HandlerKwargs) (cm : ContractMethod) (s : String),
       t.contractMethod = some cm → cm.name = some s → strContains s "Role" = false →
       _parse_permissions env t kw = Except.ok none) ∧
    (∀ (env : Env) (t : Transaction) (kw : HandlerKwargs),
       (∀ l, t.contractInputsValues = some l →
         GAUGE_ADD_METHODS.any (fun m => (civGet l m).isSome) = false) →
       _parse_added_transaction env t kw = Except.ok none) ∧
    (∀ (env : Env) (t : Transaction) (kw : HandlerKwargs),
       (∀ l, t.contractInputsValues = some l → pyStrTruthy (civGet l "data") = none) →
       _parse_removed_transaction env t kw = Except.ok none) := by
  refine ⟨?_, ?_, ?_, ?_, ?_, ?_⟩
  · intro env t kw cm hcm hname
    unfold _parse_set_recipient_list
    rcases hciv : t.contractInputsValues with _ | ⟨_ | ⟨p, l⟩⟩
    · rfl
    · rfl
    · simp only [hcm]
      rw [if_pos hname]
  · intro env t kw cm hcm hname
    unfold _parse_hh_brib
    rcases hciv : t.contractInputsValues with _ | ⟨_ | ⟨p, l⟩⟩
    · rfl
    · rfl
    · simp only [hcm]
      rw [if_pos hname]
  · intro env t kw cm s hcm hname hs
    unfold _parse_transfer
    rcases hciv : t.contractInputsValues with _ | ⟨_ | ⟨p, l⟩⟩
    · rfl
    · rfl
    · simp only [hcm, hname]
      rw [if_pos hs]
  · intro env t kw cm s hcm hname hrole
    unfold _parse_permissions
    rcases hciv : t.contractInputsValues with _ | ⟨_ | ⟨p, l⟩⟩
    · rfl
    · rfl
    · simp only [hcm, hname]
      rw [if_pos (by simp [hrole])]
  · intro env t kw h
    unfold _parse_added_transaction
    rcases hciv : t.contractInputsValues with _ | ⟨_ | ⟨p, l⟩⟩
    · rfl
    · cases t.contractMethod <;> rfl
    · cases hcm : t.contractMethod with
      | none => rfl
      | some cm =>
        have hany := h (p :: l) hciv
        simp [hany]
  · intro env t kw h
    unfold _parse_removed_transaction
    rcases hciv : t.contractInputsValues with _ | ⟨_ | ⟨p, l⟩⟩
    · rfl
    · cases t.contractMethod <;> rfl
    · cases hcm : t.contractMethod with
      | none => rfl
      | some cm =>
        simp only [h (p :: l) hciv]

/-- Witness for the amended C2: one concrete transaction with method
name `foo` and no dispatch keys is rejected by all six classifiers. -/
theorem claim2_witness :
    _parse_set_recipient_list witnessEnv miscTx { chain_id := 1 } = Except.ok none ∧
    _parse_hh_brib witnessEnv miscTx { chain_id := 1 } = Except.ok none ∧
    _parse_transfer witnessEnv miscTx { chain_id := 1 } = Except.ok none ∧
    _parse_permissions witnessEnv miscTx { chain_id := 1 } = Except.ok none ∧
    _parse_added_transaction witnessEnv miscTx { chain_id := 1 } = Except.ok none ∧
    _parse_removed_transaction witnessEnv miscTx { chain_id := 1 } = Except.ok none :=
  ⟨claim2_method_dispatch_amended.1 witnessEnv miscTx { chain_id := 1 }
     { name := some "foo" } rfl (by decide),
   claim2_method_dispatch_amended.2.1 witnessEnv miscTx { chain_id := 1 }
     { name := some "foo" } rfl (by decide),
   claim2_method_dispatch_amended.2.2.1 witnessEnv miscTx { chain_id := 1 }
     { name := some "foo" } "foo" rfl rfl (by decide),
   claim2_method_dispatch_amended.2.2.2.1 witnessEnv miscTx { chain_id := 1 }
     { name := some "foo" } "foo" rfl rfl (by decide),
   claim2_method_dispatch_amended.2.2.2.2.1 witnessEnv miscTx { chain_id := 1 }
     (by intro l hl; cases hl; rfl),
   claim2_method_dispatch_amended.2.2.2.2.2 witnessEnv miscTx { chain_id := 1 }
     (by intro l hl; cases hl; rfl)⟩

/-- Counterexample to C3 as stated: a `setRecipientList` transaction
whose record lacks the `"to"` field makes `_parse_set_recipient_list`
raise `KeyError` instead of returning `None`. -/
theorem claim3_counterexample :
    _parse_set_recipient_list witnessEnv srlMissingToTx { chain_id := 1 } =
      Except.error (PyErr.keyError "to") := rfl

/-- Claim C3 (amended): the handlers return `None` only for the
specifically guarded missing fields (`contractInputsValues` /
`contractMethod` absent, empty or falsy); a JSON field that is read
without a guard raises instead: a missing `contractMethod.name` in
`_parse_permissions` raises `TypeError`, and a missing `"to"` in
`_parse_set_recipient_list` raises `KeyError`. -/
theorem claim3_missing_fields_amended :
    (∀ (env : Env) (t : Transaction) (kw : HandlerKwargs),
       (t.contractInputsValues = none ∨ t.contractInputsValues = some [] ∨
        t.contractMethod = none) →
       _parse_set_recipient_list env t kw = Except.ok none ∧
       _parse_permissions env t kw = Except.ok none ∧
       _parse_hh_brib env t kw = Except.ok none) ∧
    (∀ (env : Env) (t : Transaction) (kw : HandlerKwargs) (cm : ContractMethod)
       (c : String × String) (cs : List (String × String)),
       t.contractMethod = some cm → cm.name = none →
       t.contractInputsValues = some (c :: cs) →
       _parse_permissions env t kw =
         Except.error (PyErr.typeError "argument of type NoneType is not iterable")) ∧
    (∀ (env : Env) (t : Transaction) (kw : HandlerKwargs) (cm : ContractMethod)
       (c : String × String) (cs : List (String × String)),
       t.contractMethod = some cm → cm.name = some "setRecipientList" →
       t.contractInputsValues = some (c :: cs) → t.toAddr = none →
       _parse_set_recipient_list env t kw = Except.error (PyErr.keyError "to")) := by
  refine ⟨?_, ?_, ?_⟩
  · intro env t kw h
    refine ⟨?_, ?_, ?_⟩
    · rcases h with h | h | h
      · unfold _parse_set_recipient_list
        rw [h]
      · unfold _parse_set_recipient_list
        rw [h]
      · unfold _parse_set_recipient_list
        rw [h]
        rcases hciv : t.contractInputsValues with _ | ⟨_ | ⟨p, l⟩⟩ <;> rfl
    · rcases h with h | h | h
      · unfold _parse_permissions
        rw [h]
      · unfold _parse_permissions
        rw [h]
      · unfold _parse_permissions
        rw [h]
        rcases hciv : t.contractInputsValues with _ | ⟨_ | ⟨p, l⟩⟩ <;> rfl
    · rcases h with h | h | h
      · unfold _parse_hh_brib
        rw [h]
      · unfold _parse_hh_brib
        rw [h]
      · unfold _parse_hh_brib
        rw [h]
        rcases hciv : t.contractInputsValues with _ | ⟨_ | ⟨p, l⟩⟩ <;> rfl
  · intro env t kw cm c cs hcm hname hciv
    unfold _parse_permissions
    simp only [hcm, hciv, hname]
  · intro env t kw cm c cs hcm hname hciv hto
    unfold _parse_set_recipient_list
    simp only [hcm, hciv, hname]
    rw [if_neg (not_not_intro rfl)]
    simp only [hto]

/-- Witness for the amended C3 at concrete transactions. -/
theorem claim3_witness :
    (_parse_set_recipient_list witnessEnv guardTx { chain_id := 1 } = Except.ok none ∧
     _parse_permissions witnessEnv guardTx { chain_id := 1 } = Except.ok none ∧
     _parse_hh_brib witnessEnv guardTx { chain_id := 1 } = Except.ok none) ∧
    _parse_permissions witnessEnv noNameTx { chain_id := 1 } =
      Except.error (PyErr.typeError "argument of type NoneType is not iterable") ∧
    _parse_set_recipient_list witnessEnv srlMissingToTx { chain_id := 1 } =
      Except.error (PyErr.keyError "to") :=
  ⟨claim3_missing_fields_amended.1 witnessEnv guardTx { chain_id := 1 } (Or.inl rfl),
   claim3_missing_fields_amended.2.1 witnessEnv noNameTx { chain_id := 1 } {}
     ("role", "0xrole") [] rfl rfl rfl,
   claim3_missing_fields_amended.2.2 witnessEnv srlMissingToTx { chain_id := 1 }
     { name := some "setRecipientList" } ("x", "y") [] rfl rfl rfl rfl⟩

/-- Counterexample to C4 as stated: a target-contract lookup failure
(`ConnectionError`, not the recognized unverified-contract error) is
silently swallowed by `_parse_removed_transaction`'s bare `except`,
which returns `None` instead of propagating. -/
theorem claim4_counterexample :
    swallowEnv.decode_input (swallowEnv.to_checksum "TGT") "0xdead" =
      Except.error (PyErr.other "ConnectionError: explorer down") ∧
    _parse_removed_transaction swallowEnv killTx { chain_id := 1 } = Except.ok none :=
  ⟨rfl, rfl⟩

/-- Claim C4 (amended): in `_extract_pool`, a failed sidechain lookup
other than the recognized unverified-contract `ValueError` propagates
out of the classifier; but `_parse_removed_transaction` wraps its
target-contract lookup/decode in a bare `except` and silently returns
`None` on ANY failure there. -/
theorem claim4_error_propagation_amended :
    (∀ (env : Env) (chain : String) (gauge : ContractInfo) (gauge_selectors : List String)
       (nid : Nat) (e : PyErr),
       chain ≠ CHAIN_MAINNET →
       lookupD env.chain_ids_by_name
         (pyReplaceStr (pyReplaceStr chain "-main" "") "avax" "avalanche") = some nid →
       env.contracts gauge.getRecipient = Except.error e →
       (∀ m, e = PyErr.valueError m → m ≠ MAGIC_UNVERIFIED) →
       _extract_pool env (some chain) gauge gauge_selectors = Except.error e) ∧
    (∀ (env : Env) (t : Transaction) (kw : HandlerKwargs) (cm : ContractMethod)
       (c : String × String) (cs : List (String × String)) (d : String) (e : PyErr),
       t.contractMethod = some cm → t.contractInputsValues = some (c :: cs) →
       pyStrTruthy (civGet (c :: cs) "data") = some d →
       removedDecode env (c :: cs) d = Except.error e →
       _parse_removed_transaction env t kw = Except.ok none) := by
  constructor
  · intro env chain gauge gauge_selectors nid e hchain hlookup hcontract hnotmagic
    have hne : (some chain ≠ some CHAIN_MAINNET) := by
      intro h
      exact hchain (Option.some_injective _ h)
    unfold _extract_pool
    rw [if_pos hne]
    simp only [hlookup]
    unfold sidechainTry
    have hcatch : extractCatch e none = Except.error e := by
      cases e with
      | valueError m =>
        simp only [extractCatch]
        rw [if_neg (hnotmagic m rfl)]
      | keyError k => rfl
      | indexError => rfl
      | typeError m => rfl
      | attributeError => rfl
      | assertionError => rfl
      | other m => rfl
    simp only [hcontract, hcatch]
  · intro env t kw cm c cs d e hcm hciv hdata hdec
    unfold _parse_removed_transaction
    simp only [hcm, hciv, hdata, hdec]

/-- Witness for the amended C4: a concrete propagated error and a
concrete swallowed one. -/
theorem claim4_witness :
    _extract_pool propagateEnv (some "polygon-main") { getRecipient := "R" } [] =
      Except.error (PyErr.other "boom") ∧
    _parse_removed_transaction swallowEnv killTx { chain_id := 1 } = Except.ok none :=
  ⟨claim4_error_propagation_amended.1 propagateEnv "polygon-main" { getRecipient := "R" } []
      137 (PyErr.other "boom") (by decide) rfl rfl (fun m h => by cases h),
   claim4_error_propagation_amended.2 swallowEnv killTx { chain_id := 1 }
      { name := some "execute" } ("data", "0xdead") [("target", "TGT")] "0xdead"
      (PyErr.other "ConnectionError: explorer down") rfl rfl rfl rfl⟩

/-- Claim C5: when the sidechain pool lookup in `_extract_pool` fails
with the block-explorer error `Contract source code not verified`, the
error is caught and every pool display field is the sentinel
`CONTRACT_UNVERIFIED`, with empty token and rate-provider lists,
instead of propagating. -/
theorem claim5_unverified_sentinel (env : Env) (chain : String) (gauge : ContractInfo)
    (gauge_selectors : List String) (nid : Nat) (sr : ContractInfo)
    (hchain : chain ≠ CHAIN_MAINNET)
    (hlookup : lookupD env.chain_ids_by_name
      (pyReplaceStr (pyReplaceStr chain "-main" "") "avax" "avalanche") = some nid)
    (hcontract : env.contracts gauge.getRecipient = Except.ok sr)
    (hrr : sr.selectors.contains "reward_receiver" = false)
    (hpool : env.get_pool_info sr.lp_token = Except.error (PyErr.valueError MAGIC_UNVERIFIED))
    (hpretty : env.prettify_tokens_list [] = []) :
    _extract_pool env (some chain) gauge gauge_selectors =
      Except.ok
        { pool_name := "CONTRACT_UNVERIFIED", pool_symbol := "CONTRACT_UNVERIFIED",
          pool_id := "CONTRACT_UNVERIFIED", pool_address := "CONTRACT_UNVERIFIED",
          a_factor := "CONTRACT_UNVERIFIED", fee := "CONTRACT_UNVERIFIED",
          style := STYLE_L0, tokens := [], rate_providers := [] } := by
  have hne : (some chain ≠ some CHAIN_MAINNET) := by
    intro h
    exact hchain (Option.some_injective _ h)
  unfold _extract_pool
  rw [if_pos hne]
  simp only [hlookup]
  unfold sidechainTry
  rw [hcontract]
  simp only [hrr, Bool.false_eq_true, ite_false, hpool]
  have hred : extractCatch (PyErr.valueError MAGIC_UNVERIFIED) none =
      Except.ok (unverifiedPoolInfo, none) := by
    unfold extractCatch
    simp
  rw [hred]
  simp only [Option.getD_none, unverifiedPoolInfo, hpretty]

/-- Witness for C5 at a concrete sidechain environment. -/
theorem claim5_witness :
    _extract_pool unverifiedEnv (some "polygon-main") { getRecipient := "R" } [] =
      Except.ok
        { pool_name := "CONTRACT_UNVERIFIED", pool_symbol := "CONTRACT_UNVERIFIED",
          pool_id := "CONTRACT_UNVERIFIED", pool_address := "CONTRACT_UNVERIFIED",
          a_factor := "CONTRACT_UNVERIFIED", fee := "CONTRACT_UNVERIFIED",
          style := STYLE_L0, tokens := [], rate_providers := [] } :=
  claim5_unverified_sentinel unverifiedEnv "polygon-main" { getRecipient := "R" } [] 137
    { selectors := [], lp_token := "LP5" }
    (by decide) rfl rfl rfl rfl rfl

/-- Counterexample to C6 as stated: with two rows sharing platform
`aura` and target `gaugeA` (amounts `100` then `250`), the first row's
target is NOT mapped to that row's amount. -/
theorem claim6_counterexample :
    process_bribe_csv id [⟨"gaugeA", "aura", "100"⟩, ⟨"gaugeA", "aura", "250"⟩] =
      Except.ok [("aura", [("gaugeA", "250")]), ("balancer", [])] ∧
    lookup2 [("aura", [("gaugeA", "250")]), ("balancer", [])] "aura" "gaugeA" ≠
      some (id "100") := by
  exact ⟨rfl, by decide⟩

/-- Claim C6 (amended): for every CSV whose rows have columns target,
platform, amount and whose platform value is `aura` or `balancer`,
`process_bribe_csv` returns a dict with exactly the keys `aura` and
`balancer`, where each row's target is mapped under its platform to
the amount (parsed as a number) of the LAST row with that platform and
target. -/
theorem claim6_bribe_csv_amended {α : Type} (pf : String → α) (rows : List BribeRow)
    (hplat : ∀ r ∈ rows, r.platform = "aura" ∨ r.platform = "balancer") :
    ∃ b, process_bribe_csv pf rows = Except.ok b ∧
      b.map (·.1) = ["aura", "balancer"] ∧
      ∀ r ∈ rows, ∃ r',
        (rows.filter (fun q => q.platform == r.platform && q.target == r.target)).getLast? =
          some r' ∧
        lookup2 b r.platform r.target = some (pf r'.amount) := by
  obtain ⟨b, hb⟩ := pbcGo_total pf rows [("aura", []), ("balancer", [])]
    (fun r hr => by rcases hplat r hr with h | h <;> simp [h])
  refine ⟨b, hb, ?_, ?_⟩
  · exact pbcGo_keys pf rows _ b hb
  · intro r hr
    cases hlast : (rows.filter (fun q => q.platform == r.platform && q.target == r.target)).getLast? with
    | none =>
      rw [List.getLast?_eq_none_iff] at hlast
      have : r ∈ rows.filter (fun q => q.platform == r.platform && q.target == r.target) :=
        List.mem_filter.mpr ⟨hr, by simp⟩
      rw [hlast] at this
      cases this
    | some r' =>
      refine ⟨r', rfl, ?_⟩
      rw [process_bribe_lookup pf rows b r.platform r.target hb, hlast, Option.map_some']

/-- Witness for the amended C6 at a concrete two-row CSV. -/
theorem claim6_witness :
    ∃ b, process_bribe_csv id [⟨"gA", "aura", "7"⟩, ⟨"gB", "balancer", "9"⟩] = Except.ok b ∧
      b.map (·.1) = ["aura", "balancer"] ∧
      ∀ r ∈ ([⟨"gA", "aura", "7"⟩, ⟨"gB", "balancer", "9"⟩] : List BribeRow), ∃ r',
        (([⟨"gA", "aura", "7"⟩, ⟨"gB", "balancer", "9"⟩] : List BribeRow).filter
          (fun q => q.platform == r.platform && q.target == r.target)).getLast? = some r' ∧
        lookup2 b r.platform r.target = some (id r'.amount) :=
  claim6_bribe_csv_amended id [⟨"gA", "aura", "7"⟩, ⟨"gB", "balancer", "9"⟩] (by decide)

/-- Claim C7: `handler` processes the files one at a time in list
order and each file's transactions one at a time in list order,
invoking the classifier with `tx_index` equal to the transaction's
zero-based position (`List.enum`), and the outputs collected for a
file appear in that same order (`classifyEnum` keeps the truthy
classifier results by `filterMap`, preserving order). -/
theorem claim7_handler_order (env : Env)
    (hf : Transaction → HandlerKwargs → Except PyErr (Option Output))
    (files : List PayloadFile) :
    handler env files hf =
      (files.mapM (fun f =>
        (classifyEnum env hf f f.transactions.enum).map (fun outs => (f, outs)))).map
        (fun l => (l.filter (fun p => !p.2.isEmpty)).map
          (fun p => (p.1.file_name, mkHandlerReport env p.1 p.2))) := by
  induction files with
  | nil => rfl
  | cons f rest ih =>
    unfold handler
    rw [show handlerLoop env hf f f.transactions 0 =
        classifyEnum env hf f f.transactions.enum from
      handlerLoop_eq_classifyEnum env hf f f.transactions 0]
    rw [List.mapM_cons]
    cases hcf : classifyEnum env hf f f.transactions.enum with
    | error e => rfl
    | ok outs =>
      rw [ih]
      cases hrest : rest.mapM (fun f =>
          (classifyEnum env hf f f.transactions.enum).map (fun outs => (f, outs))) with
      | error e => rfl
      | ok l =>
        cases houts : outs.isEmpty with
        | true =>
          simp [List.filter_cons, houts, Except.map, Except.bind, Bind.bind, pure, Except.pure]
        | false =>
          simp [List.filter_cons, houts, mkHandlerReport, Except.map, Except.bind, Bind.bind,
            pure, Except.pure]

/-- Claim C8: when `main` completes on a non-empty list of distinctly
named files, it writes `payload_reports.txt` (whose content is the
concatenation of every per-file report) followed by exactly one
`../../<name>.report.txt` per input file. -/
theorem claim8_output_files (env : Env) (files : List PayloadFile)
    (ws : List (String × String))
    (hrun : report_gauges.main env files = Except.ok ws)
    (hne : files ≠ [])
    (hnodup : (files.map (·.file_name)).Nodup) :
    ∃ rest, ws = ("payload_reports.txt", String.join (rest.map (·.2))) :: rest ∧
      rest.length = files.length ∧
      ∀ f ∈ files, ("../../" ++ pyReplaceStr f.file_name ".json" ".report.txt") ∈
        rest.map (·.1) := by
  unfold report_gauges.main at hrun
  cases h1 : handler env files (_parse_added_transaction env) with
  | error e => rw [h1] at hrun; cases hrun
  | ok r1 =>
  rw [h1] at hrun
  cases h2 : handler env files (_parse_removed_transaction env) with
  | error e => rw [h2] at hrun; cases hrun
  | ok r2 =>
  rw [h2] at hrun
  cases h3 : handler env files (_parse_transfer env) with
  | error e => rw [h3] at hrun; cases hrun
  | ok r3 =>
  rw [h3] at hrun
  cases h4 : handler env files (_parse_permissions env) with
  | error e => rw [h4] at hrun; cases hrun
  | ok r4 =>
  rw [h4] at hrun
  cases h5 : handler env files (_parse_hh_brib env) with
  | error e => rw [h5] at hrun; cases hrun
  | ok r5 =>
  rw [h5] at hrun
  cases h6 : handler env files (_parse_set_recipient_list env) with
  | error e => rw [h6] at hrun; cases hrun
  | ok r6 =>
  rw [h6] at hrun
  dsimp only at hrun
  cases h7 : parse_no_reports_report env [r1, r2, r3, r4, r5, r6] files with
  | error e => rw [h7] at hrun; cases hrun
  | ok nr =>
  rw [h7] at hrun
  dsimp only at hrun
  have hpnr := parse_ok_destruct env [r1, r2, r3, r4, r5, r6] files nr h7
  -- names of every entry of the six handler reports are file names with outputs
  have hsix : ∀ e ∈ ([r1, r2, r3, r4, r5, r6] :
      List (List (String × Report))).flatten,
      ∃ f ∈ files, e.1 = f.file_name ∧ e.2.outputs ≠ [] := by
    intro e he
    rw [List.mem_flatten] at he
    obtain ⟨l, hl, hel⟩ := he
    simp only [List.mem_cons, List.not_mem_nil, or_false] at hl
    rcases hl with rfl | rfl | rfl | rfl | rfl | rfl
    · exact handler_mem env files _ l h1 e hel
    · exact handler_mem env files _ l h2 e hel
    · exact handler_mem env files _ l h3 e hel
    · exact handler_mem env files _ l h4 e hel
    · exact handler_mem env files _ l h5 e hel
    · exact handler_mem env files _ l h6 e hel
  have hsplit : ([r1, r2, r3, r4, r5, r6, nr] :
      List (List (String × Report))).flatten =
      ([r1, r2, r3, r4, r5, r6] : List (List (String × Report))).flatten ++ nr := by
    simp
  -- every merged key is an input file name
  have hsub : ∀ k ∈ (merge_files [r1, r2, r3, r4, r5, r6, nr]).map (·.1),
      k ∈ files.map (·.file_name) := by
    intro k hk
    obtain ⟨e, he, rfl⟩ := entry_of_mem_merge_keys _ k hk
    rw [hsplit, List.mem_append] at he
    rcases he with he | he
    · obtain ⟨f, hf, hname, _⟩ := hsix e he
      rw [hname]
      exact List.mem_map_of_mem _ hf
    · obtain ⟨f, hf, hname⟩ := pnr_keys env _ files nr hpnr e he
      rw [hname]
      exact List.mem_map_of_mem _ hf
  -- every input file name is a merged key
  have hsup : ∀ f ∈ files, f.file_name ∈
      (merge_files [r1, r2, r3, r4, r5, r6, nr]).map (·.1) := by
    intro f hf
    by_cases hex : ∃ e ∈ ([r1, r2, r3, r4, r5, r6] :
        List (List (String × Report))).flatten, e.1 = f.file_name
    · obtain ⟨e, he, hname⟩ := hex
      rw [← hname]
      apply mem_merge_keys_of_entry
      rw [hsplit, List.mem_append]
      exact Or.inl he
    · push_neg at hex
      have hcov : coveredOf (([r1, r2, r3, r4, r5, r6] :
          List (List (String × Report))).flatten) f.file_name = [] :=
        coveredOf_nil_of_not_mem _ _ hex
      have hmem0 : PyVal.int 0 ∈ uncoveredIndexes f.transactions.length
          (coveredOf (([r1, r2, r3, r4, r5, r6] :
            List (List (String × Report))).flatten) f.file_name) := by
        rw [hcov, mem_uncoveredIndexes_nilcov]
        exact Or.inr rfl
      have hempF : (uncoveredIndexes f.transactions.length
          (coveredOf (([r1, r2, r3, r4, r5, r6] :
            List (List (String × Report))).flatten) f.file_name)).isEmpty = false := by
        cases hb : (uncoveredIndexes f.transactions.length
            (coveredOf (([r1, r2, r3, r4, r5, r6] :
              List (List (String × Report))).flatten) f.file_name)).isEmpty
        · rfl
        · rw [List.isEmpty_iff] at hb
          rw [hb] at hmem0
          cases hmem0
      have hin := pnr_covers env _ files nr hpnr f hf hempF
      obtain ⟨e, he, hname⟩ := List.mem_map.mp hin
      rw [← hname]
      apply mem_merge_keys_of_entry
      rw [hsplit, List.mem_append]
      exact Or.inr he
  -- the merged keys are exactly the file names, so the counts agree
  have hcount : (merge_files [r1, r2, r3, r4, r5, r6, nr]).length = files.length := by
    have h1l : ((merge_files [r1, r2, r3, r4, r5, r6, nr]).map (·.1)).length =
        (files.map (·.file_name)).length := by
      apply length_eq_of_nodup_mem_iff
      · rw [merge_files_keys]
        exact pyDedup_nodup _
      · exact hnodup
      · intro x
        constructor
        · exact hsub x
        · intro hx
          obtain ⟨f, hf, hname⟩ := List.mem_map.mp hx
          rw [← hname]
          exact hsup f hf
    rwa [List.length_map, List.length_map] at h1l
  -- the merged dict is non-empty, so payload_reports.txt is written
  have hmne : (merge_files [r1, r2, r3, r4, r5, r6, nr]).isEmpty = false := by
    obtain ⟨f, hf⟩ := List.exists_mem_of_ne_nil files hne
    have := hsup f hf
    cases hb : (merge_files [r1, r2, r3, r4, r5, r6, nr]).isEmpty
    · rfl
    · rw [List.isEmpty_iff] at hb
      rw [hb] at this
      cases this
  rw [hmne] at hrun
  simp only [Bool.false_eq_true, ite_false, List.singleton_append] at hrun
  cases hrun
  refine ⟨(merge_files [r1, r2, r3, r4, r5, r6, nr]).map
    (fun p => ("../../" ++ pyReplaceStr p.1 ".json" ".report.txt", p.2)), ?_, ?_, ?_⟩
  · rw [List.map_map]
    rfl
  · rw [List.length_map]
    exact hcount
  · intro f hf
    rw [List.map_map]
    have := hsup f hf
    obtain ⟨p, hp, hname⟩ := List.mem_map.mp this
    have : (("../../" ++ pyReplaceStr p.1 ".json" ".report.txt", p.2) :
        String × String).1 ∈ _ :=
      List.mem_map_of_mem (fun q => (("../../" ++ pyReplaceStr q.1 ".json" ".report.txt", q.2) :
        String × String).1) hp
    rw [← hname]
    exact this

/-- Witness for C8 at a concrete one-file, one-transaction run. -/
theorem claim8_witness :
    ∃ rest, ([("payload_reports.txt", ""), ("../../f.report.txt", "")] :
        List (String × String)) =
        ("payload_reports.txt", String.join (rest.map (·.2))) :: rest ∧
      rest.length = [oneTxFile].length ∧
      ∀ f ∈ [oneTxFile], ("../../" ++ pyReplaceStr f.file_name ".json" ".report.txt") ∈
        rest.map (·.1) :=
  claim8_output_files witnessEnv [oneTxFile]
    [("payload_reports.txt", ""), ("../../f.report.txt", "")] rfl
    (by decide) (by decide)

/-- Claim C9: when no report covered any transaction of a file,
`parse_no_reports_report` force-adds index 0 to the uncovered set and
then reads the transaction at index 0, so a file with an empty
transaction list and no coverage makes it raise `IndexError`: the
function is total only if every file with zero covered indices has a
non-empty transaction list. -/
theorem claim9_uncovered_zero_index (len : Nat) :
    PyVal.int 0 ∈ uncoveredIndexes len [] ∧
    ∀ (env : Env) (f : PayloadFile), f.transactions = [] →
      parse_no_reports_report env [] [f] = Except.error PyErr.indexError := by
  constructor
  · rw [mem_uncoveredIndexes_nilcov]
    by_cases h : 0 < len
    · exact Or.inl ⟨0, h, rfl⟩
    · exact Or.inr rfl
  · intro env f h
    obtain ⟨fn, cid, safe, txs⟩ := f
    simp only at h
    subst h
    rfl

/-- Witness for C9 at a concrete empty payload file. -/
theorem claim9_witness :
    PyVal.int 0 ∈ uncoveredIndexes 5 [] ∧
    parse_no_reports_report witnessEnv [] [emptyFile] = Except.error PyErr.indexError :=
  ⟨(claim9_uncovered_zero_index 5).1,
   (claim9_uncovered_zero_index 5).2 witnessEnv emptyFile rfl⟩

/-- Claim C10: when two rows of the bribe CSV share the same platform
and target, `process_bribe_csv` keeps only the amount of the last such
row: each `(platform, target)` entry of the result is the parsed
amount of the LAST matching CSV row (later rows overwrite earlier
ones; amounts are never summed). -/
theorem claim10_bribe_last_row_wins {α : Type} (pf : String → α) (rows : List BribeRow)
    (b : List (String × List (String × α))) (plat targ : String)
    (h : process_bribe_csv pf rows = Except.ok b) :
    lookup2 b plat targ =
      ((rows.filter (fun r => r.platform == plat && r.target == targ)).getLast?).map
        (fun r => pf r.amount) :=
  process_bribe_lookup pf rows b plat targ h

/-- Witness for C10: two rows for `(aura, gaugeA)` with amounts `100`
then `250`: the result maps `gaugeA` to the amount of the last row. -/
theorem claim10_witness :
    lookup2 [("aura", [("gaugeA", "250")]), ("balancer", [])] "aura" "gaugeA" =
      ((([⟨"gaugeA", "aura", "100"⟩, ⟨"gaugeA", "aura", "250"⟩] : List BribeRow).filter
        (fun r => r.platform == "aura" && r.target == "gaugeA")).getLast?).map
        (fun r => id r.amount) :=
  claim10_bribe_last_row_wins id [⟨"gaugeA", "aura", "100"⟩, ⟨"gaugeA", "aura", "250"⟩]
    [("aura", [("gaugeA", "250")]), ("balancer", [])] "aura" "gaugeA" rfl
